import Mathlib

/-!
# JD9165BA MIPI-DSI panel driver: a shallow embedding

The definitions below embed `esp_lcd_jd9165ba.c` (the panel driver of
`ESP-IDF/lvgl_demo_v9/components/jd9165ba_driver`).

* The transport (`esp_lcd_panel_io_tx_param`, `esp_lcd_panel_io_tx_color`), the
  GPIO line and `vTaskDelay` are external collaborators.  Every call to one of
  them is recorded, in order, in a trace of `Event`s; the status returned by a
  transport call is given by an arbitrary function of the trace so far and of
  the call (`Transport`), so a transport may fail at any call.
* C integers are `Int`/`Nat` with explicit wrap-around: `int` is 32 bits wide,
  `size_t` is 32 bits wide (ESP32-P4), `uint8_t` is reduced modulo 256.
* A panel operation takes the panel state and the trace and returns the status
  code, the panel state and the trace after the call.
-/

namespace JD9165BA

/-! ## Status codes and command constants -/

/-- The type `esp_err_t` of ESP-IDF status codes. -/
abbrev esp_err_t := Int

/-- Modelled from the spec: `esp_err.h` of ESP-IDF is not among the sources; success is 0. -/
def ESP_OK : esp_err_t := 0

/-- Modelled from the spec: `esp_err.h` is not among the sources; generic failure, -1. -/
def ESP_FAIL : esp_err_t := -1

/-- Modelled from the spec: `esp_err.h` is not among the sources; out of memory, 0x101. -/
def ESP_ERR_NO_MEM : esp_err_t := 0x101

/-- Modelled from the spec: `esp_err.h` is not among the sources; the invalid-argument
error, 0x102. -/
def ESP_ERR_INVALID_ARG : esp_err_t := 0x102

/-- Modelled from the spec: `esp_lcd_panel_commands.h` is not among the sources;
software reset. -/
def LCD_CMD_SWRESET : Nat := 0x01

/-- Modelled from the spec: `esp_lcd_panel_commands.h` is not among the sources; sleep-out. -/
def LCD_CMD_SLPOUT : Nat := 0x11

/-- Modelled from the spec: `esp_lcd_panel_commands.h` is not among the sources; invert-off. -/
def LCD_CMD_INVOFF : Nat := 0x20

/-- Modelled from the spec: `esp_lcd_panel_commands.h` is not among the sources; invert-on. -/
def LCD_CMD_INVON : Nat := 0x21

/-- Modelled from the spec: `esp_lcd_panel_commands.h` is not among the sources; display-off. -/
def LCD_CMD_DISPOFF : Nat := 0x28

/-- Modelled from the spec: `esp_lcd_panel_commands.h` is not among the sources; display-on. -/
def LCD_CMD_DISPON : Nat := 0x29

/-- Modelled from the spec: `esp_lcd_panel_commands.h` is not among the sources;
column-address-set. -/
def LCD_CMD_CASET : Nat := 0x2A

/-- Modelled from the spec: `esp_lcd_panel_commands.h` is not among the sources;
row-address-set. -/
def LCD_CMD_RASET : Nat := 0x2B

/-- Modelled from the spec: `esp_lcd_panel_commands.h` is not among the sources;
memory-write. -/
def LCD_CMD_RAMWR : Nat := 0x2C

/-- Modelled from the spec: `esp_lcd_panel_commands.h` is not among the sources; the
addressing-mode (MADCTL) register. -/
def LCD_CMD_MADCTL : Nat := 0x36

/-- Modelled from the spec: `esp_lcd_panel_commands.h` is not among the sources; the
color-order (BGR) flag of the addressing byte, bit 3. -/
def LCD_CMD_BGR_BIT : Nat := 2 ^ 3

/-- Modelled from the spec: `esp_lcd_panel_commands.h` is not among the sources; the
row/column-swap flag of the addressing byte, bit 5. -/
def LCD_CMD_MV_BIT : Nat := 2 ^ 5

/-- Modelled from the spec: `esp_lcd_panel_commands.h` is not among the sources; the
mirror-X flag of the addressing byte, bit 6. -/
def LCD_CMD_MX_BIT : Nat := 2 ^ 6

/-- Modelled from the spec: `esp_lcd_panel_commands.h` is not among the sources; the
mirror-Y flag of the addressing byte, bit 7. -/
def LCD_CMD_MY_BIT : Nat := 2 ^ 7

/-- The macro `JD9165BA_CMD_PAGE_SELECT`. -/
def JD9165BA_CMD_PAGE_SELECT : Nat := 0x30

/-! ## Machine arithmetic -/

/-- Conversion to `uint8_t`. -/
def to_uint8 (n : Nat) : Nat := n % 256

/-- Conversion to `uint16_t`. -/
def to_uint16 (n : Nat) : Nat := n % 65536

/-- The bit pattern of `~x` for a 32-bit `int` operand. -/
def int_not (x : Nat) : Nat := 0xFFFFFFFF ^^^ x

/-- Reduction of a mathematical integer to the 32-bit two's complement `int`
(signed overflow wraps around on the target). -/
def to_int32 (z : Int) : Int := (z + 2 ^ 31) % 2 ^ 32 - 2 ^ 31

/-- Conversion of an `int` to the 32-bit `size_t`. -/
def to_size_t (z : Int) : Nat := (z % 2 ^ 32).toNat

/-- The byte `z & 0xFF` of an `int`, as stored in a `uint8_t`. -/
def low_byte (z : Int) : Nat := (Int.land z 0xFF).toNat

/-! ## The external collaborators -/

/-- One call to an external collaborator. -/
inductive Event where
  /-- The call `esp_lcd_panel_io_tx_param(io, lcd_cmd, param, param_size)`; `param`
  holds the `param_size` bytes read at the pointer (empty for `NULL, 0`). -/
  | tx_param (lcd_cmd : Nat) (param : List Nat)
  /-- The call `esp_lcd_panel_io_tx_color(io, lcd_cmd, color, color_size)`. -/
  | tx_color (lcd_cmd : Nat) (color : List Nat) (color_size : Nat)
  /-- The call `vTaskDelay(pdMS_TO_TICKS(ms))`. -/
  | delay (ms : Nat)
  /-- The call `gpio_set_level(gpio_num, level)`. -/
  | gpio_set_level (gpio_num : Int) (level : Bool)
  deriving DecidableEq, Repr

/-- The calls made so far, oldest first. -/
abbrev Trace := List Event

/-- The transport handle `esp_lcd_panel_io_handle_t`: the status the transport returns
for a call, given everything that happened before it. -/
abbrev Transport := Trace → Event → esp_err_t

/-- The struct `jd9165ba_panel_t` (the operation table `base` is left out). -/
structure jd9165ba_panel_t where
  io : Transport
  reset_gpio_num : Int
  reset_level : Bool
  width : Nat
  height : Nat
  madctl_val : Nat
  colmod_val : Nat

/-- The fields of `esp_lcd_jd9165ba_config_t`. -/
structure esp_lcd_jd9165ba_config_t where
  reset_gpio_num : Int
  reset_level : Bool
  color_space_bgr : Bool
  mirror_horizontal : Bool
  mirror_vertical : Bool
  deriving DecidableEq, Repr

/-- Modelled from the spec: `esp_lcd_panel_dev_config_t` is declared outside the sources;
these are the fields the driver reads (the spec's construction inputs).  The C types
of `width` and `height` are not known from the sources. -/
structure esp_lcd_panel_dev_config_t where
  reset_gpio_num : Int
  width : Nat
  height : Nat
  reset_active_high : Bool
  deriving DecidableEq, Repr

/-- What a panel operation leaves behind: its status, the panel state, the trace. -/
structure Result where
  ret : esp_err_t
  panel : jd9165ba_panel_t
  trace : Trace

/-- A call to `esp_lcd_panel_io_tx_param`: the status and the extended trace. -/
def esp_lcd_panel_io_tx_param (io : Transport) (lcd_cmd : Nat) (param : List Nat)
    (tr : Trace) : esp_err_t × Trace :=
  (io tr (Event.tx_param lcd_cmd param), tr ++ [Event.tx_param lcd_cmd param])

/-- A call to `esp_lcd_panel_io_tx_color`: the status and the extended trace. -/
def esp_lcd_panel_io_tx_color (io : Transport) (lcd_cmd : Nat) (color : List Nat)
    (color_size : Nat) (tr : Trace) : esp_err_t × Trace :=
  (io tr (Event.tx_color lcd_cmd color color_size),
    tr ++ [Event.tx_color lcd_cmd color color_size])

/-- A call to `vTaskDelay(pdMS_TO_TICKS(ms))`. -/
def vTaskDelay_ms (ms : Nat) (tr : Trace) : Trace := tr ++ [Event.delay ms]

/-- A call to `gpio_set_level`; the driver ignores its status. -/
def gpio_set_level (gpio_num : Int) (level : Bool) (tr : Trace) : Trace :=
  tr ++ [Event.gpio_set_level gpio_num level]

/-! ## The vendor table and the init interpreter -/

/-- The table `vendor_specific_init`. -/
def vendor_specific_init : List Nat := [
  -- Page 0
  0x02, JD9165BA_CMD_PAGE_SELECT, 0x00,
  0x05, 0xF7, 0x49, 0x61, 0x02, 0x00,
  -- Page 1 - MIPI Configuration
  0x02, JD9165BA_CMD_PAGE_SELECT, 0x01,
  0x02, 0x04, 0x0C,
  0x02, 0x05, 0x08,
  0x02, 0x20, 0x04,
  0x02, 0x0B, 0x13,
  0x02, 0x1F, 0x05,
  0x02, 0x23, 0x38,
  0x02, 0x28, 0x18,
  0x02, 0x29, 0x29,
  0x02, 0x2A, 0x01,
  0x02, 0x2B, 0x29,
  0x02, 0x2C, 0x01,
  -- Page 2 - Display Configuration
  0x02, JD9165BA_CMD_PAGE_SELECT, 0x02,
  0x02, 0x00, 0x05,
  0x02, 0x01, 0x22,
  0x02, 0x02, 0x08,
  0x02, 0x03, 0x12,
  0x02, 0x04, 0x16,
  0x02, 0x05, 0x64,
  0x02, 0x06, 0x00,
  0x02, 0x07, 0x00,
  0x02, 0x08, 0x78,
  0x02, 0x09, 0x00,
  0x02, 0x0A, 0x04,
  -- Page 6 - Gamma Settings
  0x02, JD9165BA_CMD_PAGE_SELECT, 0x06,
  0x0F, 0x12, 0x3F, 0x26, 0x27, 0x35, 0x2D, 0x34, 0x3F, 0x3F, 0x3F, 0x35, 0x2A, 0x20, 0x16, 0x08,
  0x0F, 0x13, 0x3F, 0x26, 0x28, 0x35, 0x27, 0x29, 0x29, 0x2F, 0x35, 0x2F, 0x26, 0x20, 0x16, 0x08,
  -- Page 0x0A
  0x02, JD9165BA_CMD_PAGE_SELECT, 0x0A,
  0x02, 0x02, 0x4F,
  0x02, 0x0B, 0x40,
  -- Page 0x0D - MIPI Power
  0x02, JD9165BA_CMD_PAGE_SELECT, 0x0D,
  0x02, 0x0D, 0x04,
  0x02, 0x10, 0x0C,
  0x02, 0x11, 0x0C,
  0x02, 0x12, 0x0C,
  0x02, 0x13, 0x0C,
  -- Page 7
  0x02, JD9165BA_CMD_PAGE_SELECT, 0x07,
  0x02, 0x0D, 0x01,
  -- Back to Page 0
  0x02, JD9165BA_CMD_PAGE_SELECT, 0x00,
  -- Sleep Out
  0x01, LCD_CMD_SLPOUT,
  0xFF, 120,
  -- Display On
  0x01, LCD_CMD_DISPON,
  0xFF, 20,
  -- End of sequence
  0x00]

/-- How a run of the interpreter loop ends. -/
inductive LoopResult where
  /-- The function returned `ret`; `cmd_ptr` is what was left of the table at the cursor. -/
  | returned (ret : esp_err_t) (cmd_ptr : List Nat) (trace : Trace)
  /-- A byte was read past the end of the table (undefined behaviour in C). -/
  | out_of_bounds
  /-- The iteration budget of the model ran out. -/
  | out_of_fuel

/-- The `while (*cmd_ptr != 0x00)` loop of `panel_jd9165ba_init` together with the
`return ESP_OK` after it.  The cursor `cmd_ptr` is the part of the table from the
pointer to the end of the array; `fuel` bounds the number of iterations. -/
def init_loop (io : Transport) : Nat → List Nat → Trace → LoopResult
  | _, [], _ => LoopResult.out_of_bounds
  | 0, _ :: _, _ => LoopResult.out_of_fuel
  | fuel + 1, len :: cmd_ptr, tr =>
    if len = 0x00 then
      LoopResult.returned ESP_OK (len :: cmd_ptr) tr
    else if len = 0xFF then
      -- Delay command
      match cmd_ptr with
      | [] => LoopResult.out_of_bounds
      | delay_ms :: cmd_ptr => init_loop io fuel cmd_ptr (vTaskDelay_ms delay_ms tr)
    else if len = 0x01 then
      -- Single byte command (no parameters)
      match cmd_ptr with
      | [] => LoopResult.out_of_bounds
      | cmd :: cmd_ptr =>
        let r := esp_lcd_panel_io_tx_param io cmd [] tr
        if r.1 ≠ ESP_OK then LoopResult.returned r.1 cmd_ptr r.2
        else init_loop io fuel cmd_ptr r.2
    else
      -- Command with parameters
      match cmd_ptr with
      | [] => LoopResult.out_of_bounds
      | cmd :: cmd_ptr =>
        if cmd_ptr.length < len - 1 then LoopResult.out_of_bounds
        else
          let r := esp_lcd_panel_io_tx_param io cmd (cmd_ptr.take (len - 1)) tr
          if r.1 ≠ ESP_OK then LoopResult.returned r.1 cmd_ptr r.2
          else init_loop io fuel (cmd_ptr.drop (len - 1)) r.2

/-- The interpreter loop run over a whole table; one unit of fuel per byte of the
table is always enough (`init_loop_fuel`). -/
def run_init_sequence (io : Transport) (table : List Nat) (tr : Trace) : LoopResult :=
  init_loop io table.length table tr

/-- The operation `panel_jd9165ba_init`; `none` stands for a run that leaves the table. -/
def panel_jd9165ba_init (panel : jd9165ba_panel_t) (tr : Trace) : Option Result :=
  match run_init_sequence panel.io vendor_specific_init tr with
  | LoopResult.returned ret _ tr1 => some ⟨ret, panel, tr1⟩
  | _ => none

/-! ## The panel operations -/

/-- The factory `esp_lcd_new_panel_jd9165ba`.  `io` and `panel_dev_config` are `none`
for a null pointer, `ret_panel` tells whether the out-pointer is non-null,
`calloc_ok` whether the allocation succeeds, and `gpio_config` is the status of
configuring the reset line as an output.  The result is the status and the panel
written to `*ret_panel`. -/
def esp_lcd_new_panel_jd9165ba (io : Option Transport)
    (panel_dev_config : Option esp_lcd_panel_dev_config_t) (ret_panel : Bool)
    (calloc_ok : Bool) (gpio_config : Int → esp_err_t) :
    esp_err_t × Option jd9165ba_panel_t :=
  match io, panel_dev_config, ret_panel with
  | some io, some cfg, true =>
    if ¬ calloc_ok then (ESP_ERR_NO_MEM, none)
    else if 0 ≤ cfg.reset_gpio_num ∧ gpio_config cfg.reset_gpio_num ≠ ESP_OK then
      (ESP_FAIL, none)
    else
      (ESP_OK, some {
        io := io
        reset_gpio_num := cfg.reset_gpio_num
        reset_level := cfg.reset_active_high
        width := to_uint16 (if cfg.width ≠ 0 then cfg.width else 1024)
        height := to_uint16 (if cfg.height ≠ 0 then cfg.height else 600)
        madctl_val := 0
        colmod_val := 0x77 })
  | _, _, _ => (ESP_ERR_INVALID_ARG, none)

/-- The operation `panel_jd9165ba_reset`. -/
def panel_jd9165ba_reset (panel : jd9165ba_panel_t) (tr : Trace) : Result :=
  if 0 ≤ panel.reset_gpio_num then
    -- Perform hardware reset
    let tr := gpio_set_level panel.reset_gpio_num panel.reset_level tr
    let tr := vTaskDelay_ms 10 tr
    let tr := gpio_set_level panel.reset_gpio_num (!panel.reset_level) tr
    let tr := vTaskDelay_ms 10 tr
    ⟨ESP_OK, panel, tr⟩
  else
    -- Software reset
    let r := esp_lcd_panel_io_tx_param panel.io LCD_CMD_SWRESET [] tr
    if r.1 ≠ ESP_OK then ⟨r.1, panel, r.2⟩
    else ⟨ESP_OK, panel, vTaskDelay_ms 120 r.2⟩

/-- The operation `panel_jd9165ba_draw_bitmap`; `color_data` is the pixel buffer. -/
def panel_jd9165ba_draw_bitmap (panel : jd9165ba_panel_t)
    (x_start y_start x_end y_end : Int) (color_data : List Nat) (tr : Trace) : Result :=
  if ¬ (x_start < x_end) then ⟨ESP_ERR_INVALID_ARG, panel, tr⟩
  else if ¬ (y_start < y_end) then ⟨ESP_ERR_INVALID_ARG, panel, tr⟩
  else
    -- Column address set
    let col_data := [low_byte (x_start >>> 8), low_byte x_start,
      low_byte (to_int32 (x_end - 1) >>> 8), low_byte (to_int32 (x_end - 1))]
    let r := esp_lcd_panel_io_tx_param panel.io LCD_CMD_CASET col_data tr
    if r.1 ≠ ESP_OK then ⟨r.1, panel, r.2⟩
    else
      -- Row address set
      let row_data := [low_byte (y_start >>> 8), low_byte y_start,
        low_byte (to_int32 (y_end - 1) >>> 8), low_byte (to_int32 (y_end - 1))]
      let r := esp_lcd_panel_io_tx_param panel.io LCD_CMD_RASET row_data r.2
      if r.1 ≠ ESP_OK then ⟨r.1, panel, r.2⟩
      else
        -- Write pixel data
        let len := to_size_t (to_int32 (to_int32 (to_int32 (x_end - x_start) *
          to_int32 (y_end - y_start)) * 3))
        let r := esp_lcd_panel_io_tx_color panel.io LCD_CMD_RAMWR color_data len r.2
        if r.1 ≠ ESP_OK then ⟨r.1, panel, r.2⟩
        else ⟨ESP_OK, panel, r.2⟩

/-- The operation `panel_jd9165ba_invert_color`. -/
def panel_jd9165ba_invert_color (panel : jd9165ba_panel_t) (invert_color_data : Bool)
    (tr : Trace) : Result :=
  let command := if invert_color_data then LCD_CMD_INVON else LCD_CMD_INVOFF
  let r := esp_lcd_panel_io_tx_param panel.io command [] tr
  if r.1 ≠ ESP_OK then ⟨r.1, panel, r.2⟩
  else ⟨ESP_OK, panel, r.2⟩

/-- The operation `panel_jd9165ba_mirror`. -/
def panel_jd9165ba_mirror (panel : jd9165ba_panel_t) (mirror_x mirror_y : Bool)
    (tr : Trace) : Result :=
  let panel := if mirror_x then
      { panel with madctl_val := to_uint8 (panel.madctl_val ||| LCD_CMD_MX_BIT) }
    else
      { panel with madctl_val := to_uint8 (panel.madctl_val &&& int_not LCD_CMD_MX_BIT) }
  let panel := if mirror_y then
      { panel with madctl_val := to_uint8 (panel.madctl_val ||| LCD_CMD_MY_BIT) }
    else
      { panel with madctl_val := to_uint8 (panel.madctl_val &&& int_not LCD_CMD_MY_BIT) }
  let r := esp_lcd_panel_io_tx_param panel.io LCD_CMD_MADCTL [panel.madctl_val] tr
  if r.1 ≠ ESP_OK then ⟨r.1, panel, r.2⟩
  else ⟨ESP_OK, panel, r.2⟩

/-- The operation `panel_jd9165ba_swap_xy`. -/
def panel_jd9165ba_swap_xy (panel : jd9165ba_panel_t) (swap_axes : Bool)
    (tr : Trace) : Result :=
  let panel := if swap_axes then
      { panel with madctl_val := to_uint8 (panel.madctl_val ||| LCD_CMD_MV_BIT) }
    else
      { panel with madctl_val := to_uint8 (panel.madctl_val &&& int_not LCD_CMD_MV_BIT) }
  let r := esp_lcd_panel_io_tx_param panel.io LCD_CMD_MADCTL [panel.madctl_val] tr
  if r.1 ≠ ESP_OK then ⟨r.1, panel, r.2⟩
  else ⟨ESP_OK, panel, r.2⟩

/-- The operation `panel_jd9165ba_set_gap`: the panel has no gap setting. -/
def panel_jd9165ba_set_gap (panel : jd9165ba_panel_t) (_x_gap _y_gap : Int)
    (tr : Trace) : Result :=
  ⟨ESP_OK, panel, tr⟩

/-- The operation `panel_jd9165ba_disp_on_off`. -/
def panel_jd9165ba_disp_on_off (panel : jd9165ba_panel_t) (on_off : Bool)
    (tr : Trace) : Result :=
  let command := if on_off then LCD_CMD_DISPON else LCD_CMD_DISPOFF
  let r := esp_lcd_panel_io_tx_param panel.io command [] tr
  if r.1 ≠ ESP_OK then ⟨r.1, panel, r.2⟩
  else ⟨ESP_OK, panel, r.2⟩

/-- The bulk setter `esp_lcd_jd9165ba_set_config` on a non-null panel handle;
`jd9165ba_config` is `none` for a null pointer. -/
def esp_lcd_jd9165ba_set_config (panel : jd9165ba_panel_t)
    (jd9165ba_config : Option esp_lcd_jd9165ba_config_t) (tr : Trace) : Result :=
  match jd9165ba_config with
  | none => ⟨ESP_ERR_INVALID_ARG, panel, tr⟩
  | some cfg =>
    -- Apply color space configuration
    let panel := if cfg.color_space_bgr then
        { panel with madctl_val := to_uint8 (panel.madctl_val ||| LCD_CMD_BGR_BIT) }
      else
        { panel with madctl_val := to_uint8 (panel.madctl_val &&& int_not LCD_CMD_BGR_BIT) }
    -- Apply mirroring
    let panel := if cfg.mirror_horizontal then
        { panel with madctl_val := to_uint8 (panel.madctl_val ||| LCD_CMD_MX_BIT) }
      else panel
    let panel := if cfg.mirror_vertical then
        { panel with madctl_val := to_uint8 (panel.madctl_val ||| LCD_CMD_MY_BIT) }
      else panel
    let r := esp_lcd_panel_io_tx_param panel.io LCD_CMD_MADCTL [panel.madctl_val] tr
    if r.1 ≠ ESP_OK then ⟨r.1, panel, r.2⟩
    else ⟨ESP_OK, panel, r.2⟩

/-! ## Vocabulary of the specification -/

/-- A transport that accepts every call. -/
def transport_ok : Transport := fun _ _ => ESP_OK

/-- A freshly created 1024x600 panel without reset line on the transport `io`. -/
def panel_on (io : Transport) : jd9165ba_panel_t :=
  { io := io, reset_gpio_num := -1, reset_level := false, width := 1024, height := 600,
    madctl_val := 0, colmod_val := 0x77 }

/-- A transport that rejects the call made after `n` earlier events and accepts all others. -/
def transport_fail_at (n : Nat) : Transport :=
  fun tr _ => if tr.length = n then ESP_FAIL else ESP_OK

/-- The two bytes of a 16-bit value, most significant byte first. -/
def be16 (n : Nat) : List Nat := [n / 256, n % 256]

/-- The records of an init table, as the specification lists them. -/
inductive Record where
  | Delay (ms : Nat)
  | Command (id : Nat)
  | CommandWithParams (id : Nat) (params : List Nat)
  deriving DecidableEq, Repr

/-- The bytes of one record: `[0xFF, ms]`, `[0x01, id]` or `[len(params)+1, id] ++ params`. -/
def Record.encode : Record → List Nat
  | Record.Delay ms => [0xFF, ms]
  | Record.Command id => [0x01, id]
  | Record.CommandWithParams id params => [params.length + 1, id] ++ params

/-- The table of a list of records: the records one after the other, then the
`0x00` sentinel. -/
def encode_table : List Record → List Nat
  | [] => [0x00]
  | r :: rs => r.encode ++ encode_table rs

/-- What a record asks of the collaborators: a blocking delay, a command without
payload, or a command with its payload. -/
def Record.step : Record → Event
  | Record.Delay ms => Event.delay ms
  | Record.Command id => Event.tx_param id []
  | Record.CommandWithParams id params => Event.tx_param id params

/-- A record the encoding can express: a parameter list has 1 to 253 bytes. -/
def Record.wf : Record → Prop
  | Record.CommandWithParams _ params => 1 ≤ params.length ∧ params.length ≤ 253
  | _ => True

instance (r : Record) : Decidable r.wf := by
  cases r <;> unfold Record.wf <;> infer_instance

/-- The records of `vendor_specific_init`, read off the table. -/
def vendor_records : List Record := [
  Record.CommandWithParams 0x30 [0x00],
  Record.CommandWithParams 0xF7 [0x49, 0x61, 0x02, 0x00],
  Record.CommandWithParams 0x30 [0x01],
  Record.CommandWithParams 0x04 [0x0C],
  Record.CommandWithParams 0x05 [0x08],
  Record.CommandWithParams 0x20 [0x04],
  Record.CommandWithParams 0x0B [0x13],
  Record.CommandWithParams 0x1F [0x05],
  Record.CommandWithParams 0x23 [0x38],
  Record.CommandWithParams 0x28 [0x18],
  Record.CommandWithParams 0x29 [0x29],
  Record.CommandWithParams 0x2A [0x01],
  Record.CommandWithParams 0x2B [0x29],
  Record.CommandWithParams 0x2C [0x01],
  Record.CommandWithParams 0x30 [0x02],
  Record.CommandWithParams 0x00 [0x05],
  Record.CommandWithParams 0x01 [0x22],
  Record.CommandWithParams 0x02 [0x08],
  Record.CommandWithParams 0x03 [0x12],
  Record.CommandWithParams 0x04 [0x16],
  Record.CommandWithParams 0x05 [0x64],
  Record.CommandWithParams 0x06 [0x00],
  Record.CommandWithParams 0x07 [0x00],
  Record.CommandWithParams 0x08 [0x78],
  Record.CommandWithParams 0x09 [0x00],
  Record.CommandWithParams 0x0A [0x04],
  Record.CommandWithParams 0x30 [0x06],
  Record.CommandWithParams 0x12
    [0x3F, 0x26, 0x27, 0x35, 0x2D, 0x34, 0x3F, 0x3F, 0x3F, 0x35, 0x2A, 0x20, 0x16, 0x08],
  Record.CommandWithParams 0x13
    [0x3F, 0x26, 0x28, 0x35, 0x27, 0x29, 0x29, 0x2F, 0x35, 0x2F, 0x26, 0x20, 0x16, 0x08],
  Record.CommandWithParams 0x30 [0x0A],
  Record.CommandWithParams 0x02 [0x4F],
  Record.CommandWithParams 0x0B [0x40],
  Record.CommandWithParams 0x30 [0x0D],
  Record.CommandWithParams 0x0D [0x04],
  Record.CommandWithParams 0x10 [0x0C],
  Record.CommandWithParams 0x11 [0x0C],
  Record.CommandWithParams 0x12 [0x0C],
  Record.CommandWithParams 0x13 [0x0C],
  Record.CommandWithParams 0x30 [0x07],
  Record.CommandWithParams 0x0D [0x01],
  Record.CommandWithParams 0x30 [0x00],
  Record.Command LCD_CMD_SLPOUT,
  Record.Delay 120,
  Record.Command LCD_CMD_DISPON,
  Record.Delay 20]

/-- The steps of the init sequence: what `vendor_records` asks of the collaborators. -/
def vendor_steps : List Event := vendor_records.map Record.step

/-- Whether an event is a transport command (`esp_lcd_panel_io_tx_param`). -/
def Event.is_command : Event → Bool
  | Event.tx_param _ _ => true
  | _ => false

/-- Whether an event is a blocking delay. -/
def Event.is_delay : Event → Bool
  | Event.delay _ => true
  | _ => false

/-- The records run in order against a transport, stopping at the first command the
transport rejects: the status and the trace. -/
def run_records (io : Transport) : List Record → Trace → esp_err_t × Trace
  | [], tr => (ESP_OK, tr)
  | Record.Delay ms :: rs, tr => run_records io rs (tr ++ [Event.delay ms])
  | Record.Command id :: rs, tr =>
    if io tr (Event.tx_param id []) ≠ ESP_OK then
      (io tr (Event.tx_param id []), tr ++ [Event.tx_param id []])
    else run_records io rs (tr ++ [Event.tx_param id []])
  | Record.CommandWithParams id params :: rs, tr =>
    if io tr (Event.tx_param id params) ≠ ESP_OK then
      (io tr (Event.tx_param id params), tr ++ [Event.tx_param id params])
    else run_records io rs (tr ++ [Event.tx_param id params])

/-- The status and the trace of a finished run of the loop. -/
def LoopResult.outcome : LoopResult → Option (esp_err_t × Trace)
  | LoopResult.returned ret _ tr => some (ret, tr)
  | _ => none

/-- One call of the panel interface, with its arguments. -/
inductive Op where
  | reset
  | init
  | draw_bitmap (x_start y_start x_end y_end : Int) (color_data : List Nat)
  | invert_color (invert_color_data : Bool)
  | mirror (mirror_x mirror_y : Bool)
  | swap_xy (swap_axes : Bool)
  | set_gap (x_gap y_gap : Int)
  | disp_on_off (on_off : Bool)
  | set_config (jd9165ba_config : Option esp_lcd_jd9165ba_config_t)
  deriving DecidableEq, Repr

/-- The operation an `Op` names, applied to a panel state and a trace. -/
def Op.run : Op → jd9165ba_panel_t → Trace → Option Result
  | Op.reset, panel, tr => some (panel_jd9165ba_reset panel tr)
  | Op.init, panel, tr => panel_jd9165ba_init panel tr
  | Op.draw_bitmap x_start y_start x_end y_end color_data, panel, tr =>
    some (panel_jd9165ba_draw_bitmap panel x_start y_start x_end y_end color_data tr)
  | Op.invert_color invert_color_data, panel, tr =>
    some (panel_jd9165ba_invert_color panel invert_color_data tr)
  | Op.mirror mirror_x mirror_y, panel, tr =>
    some (panel_jd9165ba_mirror panel mirror_x mirror_y tr)
  | Op.swap_xy swap_axes, panel, tr => some (panel_jd9165ba_swap_xy panel swap_axes tr)
  | Op.set_gap x_gap y_gap, panel, tr => some (panel_jd9165ba_set_gap panel x_gap y_gap tr)
  | Op.disp_on_off on_off, panel, tr => some (panel_jd9165ba_disp_on_off panel on_off tr)
  | Op.set_config jd9165ba_config, panel, tr =>
    some (esp_lcd_jd9165ba_set_config panel jd9165ba_config tr)

/-- A sequence of calls run one after the other, whatever each call returns: the panel
state and the trace at the end. -/
def run_ops : List Op → jd9165ba_panel_t → Trace → Option (jd9165ba_panel_t × Trace)
  | [], panel, tr => some (panel, tr)
  | op :: ops, panel, tr =>
    match op.run panel tr with
    | some r => run_ops ops r.panel r.trace
    | none => none

/-- The addressing byte has no bit set outside the four flags: color order (bit 3),
axis swap (bit 5), mirror-X (bit 6) and mirror-Y (bit 7). -/
def madctl_flags_only (m : Nat) : Prop :=
  ∀ i, m.testBit i = true → i = 3 ∨ i = 5 ∨ i = 6 ∨ i = 7

/-! ## Supporting lemmas: machine arithmetic -/

theorem low_byte_natCast (n : Nat) : low_byte (n : Int) = n % 256 := by
  have h : Int.land (n : Int) 0xFF = ((n &&& 0xFF : Nat) : Int) := rfl
  have h2 : n &&& 0xFF = n % 256 := Nat.and_pow_two_sub_one_eq_mod n 8
  unfold low_byte
  rw [h, h2, Int.toNat_ofNat]

theorem low_byte_shift_natCast (n : Nat) : low_byte ((n : Int) >>> 8) = n / 256 % 256 := by
  have h : (n : Int) >>> 8 = ((n >>> 8 : Nat) : Int) := rfl
  rw [h, low_byte_natCast, Nat.shiftRight_eq_div_pow]

theorem to_int32_of_range (z : Int) (h0 : -2 ^ 31 ≤ z) (h1 : z < 2 ^ 31) : to_int32 z = z := by
  unfold to_int32
  omega

theorem to_size_t_of_nonneg (z : Int) (h0 : 0 ≤ z) (h1 : z < 2 ^ 32) :
    to_size_t z = z.toNat := by
  unfold to_size_t
  rw [Int.emod_eq_of_lt h0 h1]

theorem low_byte_of_u16 (z : Int) (h0 : 0 ≤ z) (h1 : z < 65536) :
    low_byte (z >>> 8) = z.toNat / 256 ∧ low_byte z = z.toNat % 256 := by
  obtain ⟨n, rfl⟩ := Int.eq_ofNat_of_zero_le h0
  have hn : n < 65536 := by exact_mod_cast h1
  rw [low_byte_shift_natCast, low_byte_natCast]
  simp only [Int.toNat_ofNat, and_true]
  omega

/-! ## Draw bitmap -/

/-- C1: for a valid window (well-ordered bounds whose addresses fit the 16-bit fields,
`0 ≤ x_start < x_end ≤ 65536` and `0 ≤ y_start < y_end ≤ 65536`, and whose byte count
fits an `int`) and a transport that accepts every call, `draw_bitmap` returns `ESP_OK`
after exactly three calls: column-address-set with the big-endian bytes of
`(x_start, x_end - 1)`, row-address-set with the big-endian bytes of
`(y_start, y_end - 1)`, and memory-write with the pixel buffer and the length
`(x_end - x_start) * (y_end - y_start) * 3`. -/
theorem draw_bitmap_window (panel : jd9165ba_panel_t) (x_start y_start x_end y_end : Int)
    (color_data : List Nat) (tr : Trace)
    (hx : x_start < x_end) (hy : y_start < y_end)
    (hx0 : 0 ≤ x_start) (hx1 : x_end ≤ 65536) (hy0 : 0 ≤ y_start) (hy1 : y_end ≤ 65536)
    (hlen : (x_end - x_start) * (y_end - y_start) * 3 < 2 ^ 31)
    (hio : ∀ h e, panel.io h e = ESP_OK) :
    panel_jd9165ba_draw_bitmap panel x_start y_start x_end y_end color_data tr =
      ⟨ESP_OK, panel, tr ++
        [Event.tx_param LCD_CMD_CASET (be16 x_start.toNat ++ be16 (x_end - 1).toNat),
         Event.tx_param LCD_CMD_RASET (be16 y_start.toNat ++ be16 (y_end - 1).toNat),
         Event.tx_color LCD_CMD_RAMWR color_data
           ((x_end - x_start) * (y_end - y_start) * 3).toNat]⟩ := by
  have hdx : 0 < x_end - x_start := by omega
  have hdy : 0 < y_end - y_start := by omega
  have hp1 : x_end - x_start ≤ (x_end - x_start) * (y_end - y_start) :=
    le_mul_of_one_le_right hdx.le (by omega)
  have hp0 : 0 < (x_end - x_start) * (y_end - y_start) := mul_pos hdx hdy
  have e1 : to_int32 (x_end - 1) = x_end - 1 := to_int32_of_range _ (by omega) (by omega)
  have e2 : to_int32 (y_end - 1) = y_end - 1 := to_int32_of_range _ (by omega) (by omega)
  have e3 : to_int32 (x_end - x_start) = x_end - x_start :=
    to_int32_of_range _ (by omega) (by omega)
  have e4 : to_int32 (y_end - y_start) = y_end - y_start :=
    to_int32_of_range _ (by omega) (by omega)
  have e5 : to_int32 ((x_end - x_start) * (y_end - y_start)) =
      (x_end - x_start) * (y_end - y_start) :=
    to_int32_of_range _ (by omega) (by omega)
  have e6 : to_int32 ((x_end - x_start) * (y_end - y_start) * 3) =
      (x_end - x_start) * (y_end - y_start) * 3 :=
    to_int32_of_range _ (by omega) (by omega)
  have e7 : to_size_t ((x_end - x_start) * (y_end - y_start) * 3) =
      ((x_end - x_start) * (y_end - y_start) * 3).toNat :=
    to_size_t_of_nonneg _ (by omega) (by omega)
  have cx0 := low_byte_of_u16 x_start hx0 (by omega)
  have cx1 := low_byte_of_u16 (x_end - 1) (by omega) (by omega)
  have cy0 := low_byte_of_u16 y_start hy0 (by omega)
  have cy1 := low_byte_of_u16 (y_end - 1) (by omega) (by omega)
  simp only [panel_jd9165ba_draw_bitmap, esp_lcd_panel_io_tx_param,
    esp_lcd_panel_io_tx_color, hio, hx, hy, e1, e2, e3, e4, e5, e6, e7, cx0.1, cx0.2,
    cx1.1, cx1.2, cy0.1, cy0.2, cy1.1, cy1.2, be16]
  simp

/-- The 200x200 box at (100,100): bytes 00 64 01 2B twice and length 120000. -/
theorem draw_bitmap_window_witness :
    panel_jd9165ba_draw_bitmap (panel_on transport_ok) 100 100 300 300 [] [] =
      ⟨ESP_OK, panel_on transport_ok,
        [Event.tx_param LCD_CMD_CASET [0x00, 0x64, 0x01, 0x2B],
         Event.tx_param LCD_CMD_RASET [0x00, 0x64, 0x01, 0x2B],
         Event.tx_color LCD_CMD_RAMWR [] 120000]⟩ :=
  draw_bitmap_window (panel_on transport_ok) 100 100 300 300 [] [] (by decide) (by decide)
    (by decide) (by decide) (by decide) (by decide) (by decide) (fun _ _ => rfl)

/-- C2: with `x_start ≥ x_end` or `y_start ≥ y_end`, whatever the panel state and
the transport, `draw_bitmap` returns the invalid-argument error and makes no call at
all: the trace and the panel state are as before. -/
theorem draw_bitmap_invalid_bounds (panel : jd9165ba_panel_t)
    (x_start y_start x_end y_end : Int) (color_data : List Nat) (tr : Trace)
    (h : x_end ≤ x_start ∨ y_end ≤ y_start) :
    panel_jd9165ba_draw_bitmap panel x_start y_start x_end y_end color_data tr =
      ⟨ESP_ERR_INVALID_ARG, panel, tr⟩ := by
  unfold panel_jd9165ba_draw_bitmap
  by_cases hx : x_start < x_end
  · have hy : ¬ y_start < y_end := by omega
    simp [hx, hy]
  · simp [hx]

/-- An empty window (equal row bounds) on a transport that would reject any call. -/
theorem draw_bitmap_invalid_bounds_witness :
    panel_jd9165ba_draw_bitmap (panel_on (transport_fail_at 0)) 0 7 10 7 [1, 2, 3] [] =
      ⟨ESP_ERR_INVALID_ARG, panel_on (transport_fail_at 0), []⟩ :=
  draw_bitmap_invalid_bounds (panel_on (transport_fail_at 0)) 0 7 10 7 [1, 2, 3] []
    (Or.inr (by decide))

/-- C3: for well-ordered bounds the three transport calls of `draw_bitmap` are a
column-address-set with four bytes, a row-address-set with four bytes and a
memory-write, fixed by the arguments alone and issued in this order; whatever the
transport, if the first call it rejects is the k-th (k = 1, 2, 3), `draw_bitmap`
returns the status of that call and the trace has grown by exactly the first k calls;
if it rejects none, the result is `ESP_OK` after the three calls. -/
theorem draw_bitmap_fail_fast (x_start y_start x_end y_end : Int) (color_data : List Nat)
    (hx : x_start < x_end) (hy : y_start < y_end) :
    ∃ col row len, col.length = 4 ∧ row.length = 4 ∧
      ∀ (panel : jd9165ba_panel_t) (tr : Trace),
        let c1 := Event.tx_param LCD_CMD_CASET col
        let c2 := Event.tx_param LCD_CMD_RASET row
        let c3 := Event.tx_color LCD_CMD_RAMWR color_data len
        let r := panel_jd9165ba_draw_bitmap panel x_start y_start x_end y_end color_data tr
        (panel.io tr c1 ≠ ESP_OK → r = ⟨panel.io tr c1, panel, tr ++ [c1]⟩) ∧
        (panel.io tr c1 = ESP_OK → panel.io (tr ++ [c1]) c2 ≠ ESP_OK →
          r = ⟨panel.io (tr ++ [c1]) c2, panel, tr ++ [c1, c2]⟩) ∧
        (panel.io tr c1 = ESP_OK → panel.io (tr ++ [c1]) c2 = ESP_OK →
          panel.io (tr ++ [c1, c2]) c3 ≠ ESP_OK →
          r = ⟨panel.io (tr ++ [c1, c2]) c3, panel, tr ++ [c1, c2, c3]⟩) ∧
        (panel.io tr c1 = ESP_OK → panel.io (tr ++ [c1]) c2 = ESP_OK →
          panel.io (tr ++ [c1, c2]) c3 = ESP_OK →
          r = ⟨ESP_OK, panel, tr ++ [c1, c2, c3]⟩) := by
  refine ⟨[low_byte (x_start >>> 8), low_byte x_start,
      low_byte (to_int32 (x_end - 1) >>> 8), low_byte (to_int32 (x_end - 1))],
    [low_byte (y_start >>> 8), low_byte y_start,
      low_byte (to_int32 (y_end - 1) >>> 8), low_byte (to_int32 (y_end - 1))],
    to_size_t (to_int32 (to_int32 (to_int32 (x_end - x_start) *
      to_int32 (y_end - y_start)) * 3)), rfl, rfl, ?_⟩
  intro panel tr
  refine ⟨?_, ?_, ?_, ?_⟩
  · intro h1
    simp [panel_jd9165ba_draw_bitmap, esp_lcd_panel_io_tx_param, hx, hy, h1]
  · intro h1 h2
    simp [panel_jd9165ba_draw_bitmap, esp_lcd_panel_io_tx_param, hx, hy, h1, h2]
  · intro h1 h2 h3
    simp [panel_jd9165ba_draw_bitmap, esp_lcd_panel_io_tx_param,
      esp_lcd_panel_io_tx_color, hx, hy, h1, h2, h3]
  · intro h1 h2 h3
    simp [panel_jd9165ba_draw_bitmap, esp_lcd_panel_io_tx_param,
      esp_lcd_panel_io_tx_color, hx, hy, h1, h2, h3]

/-- A transport that rejects only the second call: the row-address-set fails. -/
theorem draw_bitmap_fail_fast_witness :
    (panel_jd9165ba_draw_bitmap (panel_on (transport_fail_at 1)) 0 0 10 10 [] []).ret
        = ESP_FAIL ∧
      (panel_jd9165ba_draw_bitmap (panel_on (transport_fail_at 1)) 0 0 10 10 [] []).trace.length
        = 2 := by
  obtain ⟨col, row, len, -, -, h⟩ :=
    draw_bitmap_fail_fast 0 0 10 10 [] (by decide) (by decide)
  have h2 := (h (panel_on (transport_fail_at 1)) []).2.1 rfl
    (by simp [panel_on, transport_fail_at, ESP_FAIL, ESP_OK])
  rw [h2]
  exact ⟨rfl, rfl⟩

/-! ## The init interpreter -/

theorem encode_table_length_pos (rs : List Record) : 0 < (encode_table rs).length := by
  induction rs with
  | nil => simp [encode_table]
  | cons r rs ih =>
    simp only [encode_table, List.length_append]
    omega

/-- One unit of fuel per remaining byte is enough: the loop never runs out of fuel. -/
theorem init_loop_fuel (io : Transport) :
    ∀ (fuel : Nat) (cmd_ptr : List Nat) (tr : Trace), cmd_ptr.length ≤ fuel →
      init_loop io fuel cmd_ptr tr ≠ LoopResult.out_of_fuel := by
  intro fuel
  induction fuel using Nat.strong_induction_on with
  | _ fuel ih =>
    intro cmd_ptr tr hlen
    match fuel, cmd_ptr, hlen with
    | _, [], _ => simp [init_loop]
    | 0, _ :: _, h => simp at h
    | fuel + 1, len :: cmd_ptr, h =>
      simp only [List.length_cons, Nat.add_le_add_iff_right] at h
      unfold init_loop
      split
      · simp
      · split
        · split
          · simp
          · rename_i d rest
            exact ih fuel (Nat.lt_succ_self _) rest _ (by simp at h; omega)
        · split
          · split
            · simp
            · rename_i c rest
              simp only []
              split
              · simp
              · exact ih fuel (Nat.lt_succ_self _) rest _ (by simp at h; omega)
          · split
            · simp
            · rename_i c rest
              simp only []
              split
              · simp
              · split
                · simp
                · exact ih fuel (Nat.lt_succ_self _) _ _ (by simp at h ⊢; omega)

/-- The loop over an encoded table does what the records say, whatever the transport. -/
theorem init_loop_encode (io : Transport) (rs : List Record) (hwf : ∀ r ∈ rs, r.wf) :
    ∀ (fuel : Nat) (tr : Trace), (encode_table rs).length ≤ fuel →
      (init_loop io fuel (encode_table rs) tr).outcome = some (run_records io rs tr) := by
  induction rs with
  | nil =>
    intro fuel tr h
    match fuel, h with
    | fuel + 1, _ => simp [encode_table, init_loop, LoopResult.outcome, run_records]
  | cons r rs ih =>
    intro fuel tr h
    have ih := ih (fun r hr => hwf r (List.mem_cons_of_mem _ hr))
    have hr := hwf r (List.mem_cons_self _ _)
    have hpos := encode_table_length_pos rs
    cases r with
    | Delay ms =>
      match fuel, h with
      | fuel + 1, h =>
        simp only [encode_table, Record.encode, List.cons_append, List.nil_append,
          List.length_cons] at h ⊢
        simp only [init_loop, run_records, vTaskDelay_ms]
        simp only [show ¬ (255 = 0) by decide, if_false, if_true]
        exact ih fuel _ (by omega)
    | Command id =>
      match fuel, h with
      | fuel + 1, h =>
        simp only [encode_table, Record.encode, List.cons_append, List.nil_append,
          List.length_cons] at h ⊢
        simp only [init_loop, run_records, esp_lcd_panel_io_tx_param]
        simp only [show ¬ (1 = 0) by decide, show ¬ (1 = 255) by decide, if_false, if_true]
        split
        · simp [LoopResult.outcome]
        · exact ih fuel _ (by omega)
    | CommandWithParams id params =>
      simp only [Record.wf] at hr
      match fuel, h with
      | fuel + 1, h =>
        simp only [encode_table, Record.encode, List.cons_append, List.nil_append,
          List.length_cons, List.append_assoc, List.length_append] at h ⊢
        simp only [init_loop, run_records, esp_lcd_panel_io_tx_param]
        have h0 : ¬ (params.length + 1 = 0) := by omega
        have h1 : ¬ (params.length + 1 = 255) := by omega
        have h2 : ¬ (params.length + 1 = 1) := by omega
        have h3 : ¬ ((params ++ encode_table rs).length < params.length) := by
          simp
        simp only [Nat.add_sub_cancel, h0, h1, h2, h3, if_false, List.take_left,
          List.drop_left]
        by_cases hio : io tr (Event.tx_param id params) = ESP_OK
        · simp only [hio, ne_eq, not_true_eq_false, if_false]
          exact ih fuel _ (by omega)
        · simp [hio, LoopResult.outcome]

/-- With a transport that accepts every call the loop issues every record and stops on
the sentinel. -/
theorem init_loop_encode_ok (io : Transport) (hio : ∀ h e, io h e = ESP_OK)
    (rs : List Record) (hwf : ∀ r ∈ rs, r.wf) :
    ∀ (fuel : Nat) (tr : Trace), (encode_table rs).length ≤ fuel →
      init_loop io fuel (encode_table rs) tr =
        LoopResult.returned ESP_OK [0x00] (tr ++ rs.map Record.step) := by
  induction rs with
  | nil =>
    intro fuel tr h
    match fuel, h with
    | fuel + 1, _ => simp [encode_table, init_loop]
  | cons r rs ih =>
    intro fuel tr h
    have ih := ih (fun r hr => hwf r (List.mem_cons_of_mem _ hr))
    have hr := hwf r (List.mem_cons_self _ _)
    have hpos := encode_table_length_pos rs
    cases r with
    | Delay ms =>
      match fuel, h with
      | fuel + 1, h =>
        simp only [encode_table, Record.encode, List.cons_append, List.nil_append,
          List.length_cons] at h ⊢
        simp only [init_loop, vTaskDelay_ms]
        simp only [show ¬ (255 = 0) by decide, if_false, if_true]
        rw [ih fuel _ (by omega)]
        simp [Record.step]
    | Command id =>
      match fuel, h with
      | fuel + 1, h =>
        simp only [encode_table, Record.encode, List.cons_append, List.nil_append,
          List.length_cons] at h ⊢
        simp only [init_loop, esp_lcd_panel_io_tx_param]
        simp only [show ¬ (1 = 0) by decide, show ¬ (1 = 255) by decide, if_false, if_true,
          hio, ne_eq, not_true_eq_false]
        rw [ih fuel _ (by omega)]
        simp [Record.step]
    | CommandWithParams id params =>
      simp only [Record.wf] at hr
      match fuel, h with
      | fuel + 1, h =>
        simp only [encode_table, Record.encode, List.cons_append, List.nil_append,
          List.length_cons, List.append_assoc, List.length_append] at h ⊢
        simp only [init_loop, esp_lcd_panel_io_tx_param]
        have h0 : ¬ (params.length + 1 = 0) := by omega
        have h1 : ¬ (params.length + 1 = 255) := by omega
        have h2 : ¬ (params.length + 1 = 1) := by omega
        have h3 : ¬ ((params ++ encode_table rs).length < params.length) := by
          simp
        simp only [Nat.add_sub_cancel, h0, h1, h2, h3, if_false, List.take_left,
          List.drop_left, hio, ne_eq, not_true_eq_false]
        rw [ih fuel _ (by omega)]
        simp [Record.step]

theorem run_records_cons (io : Transport) (r : Record) (rs : List Record) (tr : Trace) :
    run_records io (r :: rs) tr =
      if r.step.is_command = true ∧ io tr r.step ≠ ESP_OK then (io tr r.step, tr ++ [r.step])
      else run_records io rs (tr ++ [r.step]) := by
  cases r <;> simp [run_records, Record.step, Event.is_command]

/-- The records run against any transport: the run stops at the first rejected command
with its status, having issued the steps up to and including that command. -/
theorem run_records_fail_fast (io : Transport) :
    ∀ (rs : List Record) (tr : Trace) (k cmd : Nat) (param : List Nat),
      (rs.map Record.step)[k]? = some (Event.tx_param cmd param) →
      (∀ j c p, j < k → (rs.map Record.step)[j]? = some (Event.tx_param c p) →
        io (tr ++ (rs.map Record.step).take j) (Event.tx_param c p) = ESP_OK) →
      io (tr ++ (rs.map Record.step).take k) (Event.tx_param cmd param) ≠ ESP_OK →
      run_records io rs tr =
        (io (tr ++ (rs.map Record.step).take k) (Event.tx_param cmd param),
          tr ++ (rs.map Record.step).take (k + 1)) := by
  intro rs
  induction rs with
  | nil => intro tr k cmd param hk; simp at hk
  | cons r rs ih =>
    intro tr k cmd param hk hprev hfail
    rw [run_records_cons]
    cases k with
    | zero =>
      simp only [List.map_cons, List.getElem?_cons_zero, Option.some.injEq] at hk
      simp only [List.take_zero, List.append_nil] at hfail
      simp [hk, Event.is_command, hfail]
    | succ k =>
      simp only [List.map_cons, List.getElem?_cons_succ] at hk
      have hstep : ¬ (r.step.is_command = true ∧ io tr r.step ≠ ESP_OK) := by
        rintro ⟨hc, hne⟩
        apply hne
        cases hs : r.step with
        | tx_param c p =>
          have := hprev 0 c p (Nat.succ_pos k) (by simp [hs])
          simpa using this
        | tx_color _ _ _ => simp [hs, Event.is_command] at hc
        | delay _ => simp [hs, Event.is_command] at hc
        | gpio_set_level _ _ => simp [hs, Event.is_command] at hc
      rw [if_neg hstep]
      have := ih (tr ++ [r.step]) k cmd param hk
        (fun j c p hj hjs => by
          have := hprev (j + 1) c p (by omega) (by simpa using hjs)
          simpa using this)
        (by simpa using hfail)
      rw [this]
      simp

set_option maxRecDepth 4000 in
theorem vendor_table_encoding : vendor_specific_init = encode_table vendor_records := by
  decide

set_option maxRecDepth 4000 in
theorem vendor_records_wf : ∀ r ∈ vendor_records, r.wf := by decide

/-- The operation `init` runs the vendor records against the transport: it always
returns, with the status and the trace of that run. -/
theorem panel_init_run_records (panel : jd9165ba_panel_t) (tr : Trace) :
    panel_jd9165ba_init panel tr =
      some ⟨(run_records panel.io vendor_records tr).1, panel,
        (run_records panel.io vendor_records tr).2⟩ := by
  have h := init_loop_encode panel.io vendor_records vendor_records_wf
    vendor_specific_init.length tr (by rw [vendor_table_encoding])
  rw [← vendor_table_encoding] at h
  unfold panel_jd9165ba_init run_init_sequence
  cases hl : init_loop panel.io vendor_specific_init.length vendor_specific_init tr with
  | returned ret cmd_ptr tr1 =>
    rw [hl] at h
    simp only [LoopResult.outcome, Option.some.injEq] at h
    simp [← h]
  | out_of_bounds => rw [hl] at h; simp [LoopResult.outcome] at h
  | out_of_fuel => rw [hl] at h; simp [LoopResult.outcome] at h

/-- C4: round trip of the interpreter. For every list of records `Delay`, `Command`,
`CommandWithParams` whose parameter lists have 1 to 253 bytes, the loop run with a
transport that accepts every call over the encoded table (the records encoded as
`[0xFF, ms]`, `[0x01, id]`, `[len(params)+1, id] ++ params`, then the `0x00` sentinel)
issues exactly the steps of the records, in order, and returns `ESP_OK` with the
cursor on the sentinel. -/
theorem init_round_trip (io : Transport) (rs : List Record) (tr : Trace)
    (hwf : ∀ r ∈ rs, r.wf) (hio : ∀ h e, io h e = ESP_OK) :
    run_init_sequence io (encode_table rs) tr =
      LoopResult.returned ESP_OK [0x00] (tr ++ rs.map Record.step) :=
  init_loop_encode_ok io hio rs hwf _ tr (Nat.le_refl _)

/-- The table `[0x02,0x30,0x01, 0x01,0x11, 0xFF,0x05, 0x00]` yields command 0x30 with
parameter 0x01, command 0x11 without parameters, a 5 ms delay, then termination. -/
theorem init_round_trip_witness :
    run_init_sequence transport_ok [0x02, 0x30, 0x01, 0x01, 0x11, 0xFF, 0x05, 0x00] [] =
      LoopResult.returned ESP_OK [0x00]
        [Event.tx_param 0x30 [0x01], Event.tx_param 0x11 [], Event.delay 5] :=
  init_round_trip transport_ok
    [Record.CommandWithParams 0x30 [0x01], Record.Command 0x11, Record.Delay 5] []
    (by decide) (fun _ _ => rfl)

/-- C5: `init` is fail-fast. If the first command of the init sequence that the
transport rejects is step `k` of `vendor_steps`, `init` returns the status of that call
and the trace has grown by exactly the steps up to and including that command: no
later command and no later delay is issued. -/
theorem init_fail_fast (panel : jd9165ba_panel_t) (tr : Trace) (k cmd : Nat)
    (param : List Nat)
    (hk : vendor_steps[k]? = some (Event.tx_param cmd param))
    (hprev : ∀ j c p, j < k → vendor_steps[j]? = some (Event.tx_param c p) →
      panel.io (tr ++ vendor_steps.take j) (Event.tx_param c p) = ESP_OK)
    (hfail : panel.io (tr ++ vendor_steps.take k) (Event.tx_param cmd param) ≠ ESP_OK) :
    panel_jd9165ba_init panel tr =
      some ⟨panel.io (tr ++ vendor_steps.take k) (Event.tx_param cmd param), panel,
        tr ++ vendor_steps.take (k + 1)⟩ := by
  rw [panel_init_run_records,
    run_records_fail_fast panel.io vendor_records tr k cmd param hk hprev hfail]
  rfl

/-- The third command of the sequence (page-select 0x30 with parameter 0x01) is
rejected: `init` returns that failure after exactly three commands. -/
theorem init_fail_fast_witness :
    panel_jd9165ba_init (panel_on (transport_fail_at 2)) [] =
      some ⟨ESP_FAIL, panel_on (transport_fail_at 2),
        [Event.tx_param 0x30 [0x00], Event.tx_param 0xF7 [0x49, 0x61, 0x02, 0x00],
         Event.tx_param 0x30 [0x01]]⟩ :=
  init_fail_fast (panel_on (transport_fail_at 2)) [] 2 0x30 [0x01] rfl
    (fun j c p hj _ => by
      have h : ¬ (([] : Trace) ++ vendor_steps.take j).length = 2 := by
        rw [List.nil_append, List.length_take]; omega
      exact if_neg h)
    (by decide)

set_option maxRecDepth 8000 in
/-- C6: with a transport that accepts every call, `init` replays the vendor table once
and returns `ESP_OK`. The table has 161 bytes and ends with `0x00`; the run does not
leave the table and stops with the cursor on that last byte, having issued the 45
steps of `vendor_steps`: 43 commands and 2 delays, the first being page-select 0x30
with parameter 0x00 and the last four sleep-out, 120 ms, display-on, 20 ms. The
command with ID 0x00 and the commands with parameter 0x00 are issued like the others. -/
theorem init_vendor_table (panel : jd9165ba_panel_t) (tr : Trace)
    (hio : ∀ h e, panel.io h e = ESP_OK) :
    vendor_specific_init.length = 161 ∧
    vendor_specific_init.getLast? = some 0x00 ∧
    run_init_sequence panel.io vendor_specific_init tr =
      LoopResult.returned ESP_OK [0x00] (tr ++ vendor_steps) ∧
    panel_jd9165ba_init panel tr = some ⟨ESP_OK, panel, tr ++ vendor_steps⟩ ∧
    vendor_steps.length = 45 ∧
    vendor_steps.countP Event.is_command = 43 ∧
    vendor_steps.countP Event.is_delay = 2 ∧
    vendor_steps.head? = some (Event.tx_param JD9165BA_CMD_PAGE_SELECT [0x00]) ∧
    vendor_steps.drop 41 =
      [Event.tx_param LCD_CMD_SLPOUT [], Event.delay 120,
       Event.tx_param LCD_CMD_DISPON [], Event.delay 20] ∧
    vendor_steps[15]? = some (Event.tx_param 0x00 [0x05]) ∧
    vendor_steps[21]? = some (Event.tx_param 0x06 [0x00]) := by
  have hrun : run_init_sequence panel.io vendor_specific_init tr =
      LoopResult.returned ESP_OK [0x00] (tr ++ vendor_steps) := by
    unfold run_init_sequence
    have h := init_loop_encode_ok panel.io hio vendor_records vendor_records_wf
      vendor_specific_init.length tr (by rw [vendor_table_encoding])
    rw [← vendor_table_encoding] at h
    exact h
  refine ⟨by decide, by decide, hrun, ?_, by decide, by decide, by decide, by decide,
    by decide, by decide, by decide⟩
  unfold panel_jd9165ba_init
  rw [hrun]

/-- The vendor table replayed on a fresh panel with the accepting transport. -/
theorem init_vendor_table_witness :
    panel_jd9165ba_init (panel_on transport_ok) [] =
      some ⟨ESP_OK, panel_on transport_ok, vendor_steps⟩ :=
  (init_vendor_table (panel_on transport_ok) [] (fun _ _ => rfl)).2.2.2.1

/-! ## The addressing byte -/

theorem testBit_set_bit (m k i : Nat) :
    (to_uint8 (m ||| 2 ^ k)).testBit i =
      (decide (i < 8) && (m.testBit i || decide (k = i))) := by
  have h : (256 : Nat) = 2 ^ 8 := by norm_num
  simp only [to_uint8, h, Nat.testBit_mod_two_pow, Nat.testBit_or, Nat.testBit_two_pow]

theorem testBit_clear_bit (m k i : Nat) :
    (to_uint8 (m &&& int_not (2 ^ k))).testBit i =
      (decide (i < 8) && (m.testBit i && !decide (k = i))) := by
  have h : (256 : Nat) = 2 ^ 8 := by norm_num
  have h32 : (0xFFFFFFFF : Nat) = 2 ^ 32 - 1 := by norm_num
  simp only [to_uint8, int_not, h, h32, Nat.testBit_mod_two_pow, Nat.testBit_and,
    Nat.testBit_xor, Nat.testBit_two_pow, Nat.testBit_two_pow_sub_one]
  by_cases h8 : i < 8
  · have : i < 32 := by omega
    simp [h8, this]
  · simp [h8]

theorem set_BGR_testBit (m i : Nat) : (to_uint8 (m ||| LCD_CMD_BGR_BIT)).testBit i =
    (decide (i < 8) && (m.testBit i || decide (3 = i))) := testBit_set_bit m 3 i

theorem set_MV_testBit (m i : Nat) : (to_uint8 (m ||| LCD_CMD_MV_BIT)).testBit i =
    (decide (i < 8) && (m.testBit i || decide (5 = i))) := testBit_set_bit m 5 i

theorem set_MX_testBit (m i : Nat) : (to_uint8 (m ||| LCD_CMD_MX_BIT)).testBit i =
    (decide (i < 8) && (m.testBit i || decide (6 = i))) := testBit_set_bit m 6 i

theorem set_MY_testBit (m i : Nat) : (to_uint8 (m ||| LCD_CMD_MY_BIT)).testBit i =
    (decide (i < 8) && (m.testBit i || decide (7 = i))) := testBit_set_bit m 7 i

theorem clear_BGR_testBit (m i : Nat) :
    (to_uint8 (m &&& int_not LCD_CMD_BGR_BIT)).testBit i =
      (decide (i < 8) && (m.testBit i && !decide (3 = i))) := testBit_clear_bit m 3 i

theorem clear_MV_testBit (m i : Nat) :
    (to_uint8 (m &&& int_not LCD_CMD_MV_BIT)).testBit i =
      (decide (i < 8) && (m.testBit i && !decide (5 = i))) := testBit_clear_bit m 5 i

theorem clear_MX_testBit (m i : Nat) :
    (to_uint8 (m &&& int_not LCD_CMD_MX_BIT)).testBit i =
      (decide (i < 8) && (m.testBit i && !decide (6 = i))) := testBit_clear_bit m 6 i

theorem clear_MY_testBit (m i : Nat) :
    (to_uint8 (m &&& int_not LCD_CMD_MY_BIT)).testBit i =
      (decide (i < 8) && (m.testBit i && !decide (7 = i))) := testBit_clear_bit m 7 i

/-- The bits of the addressing byte stored by `mirror`. -/
theorem mirror_testBit (panel : jd9165ba_panel_t) (mirror_x mirror_y : Bool) (tr : Trace)
    (i : Nat) :
    (panel_jd9165ba_mirror panel mirror_x mirror_y tr).panel.madctl_val.testBit i =
      (decide (i < 8) &&
        (if i = 6 then mirror_x else if i = 7 then mirror_y
          else panel.madctl_val.testBit i)) := by
  have e : (panel_jd9165ba_mirror panel mirror_x mirror_y tr).panel.madctl_val =
      (if mirror_y then
        to_uint8 ((if mirror_x then to_uint8 (panel.madctl_val ||| LCD_CMD_MX_BIT)
          else to_uint8 (panel.madctl_val &&& int_not LCD_CMD_MX_BIT)) ||| LCD_CMD_MY_BIT)
       else
        to_uint8 ((if mirror_x then to_uint8 (panel.madctl_val ||| LCD_CMD_MX_BIT)
          else to_uint8 (panel.madctl_val &&& int_not LCD_CMD_MX_BIT)) &&&
            int_not LCD_CMD_MY_BIT)) := by
    unfold panel_jd9165ba_mirror
    cases mirror_x <;> cases mirror_y <;> simp [apply_ite]
  rw [e]
  by_cases h8 : i < 8 <;> by_cases h6 : i = 6 <;> by_cases h7 : i = 7 <;>
    cases mirror_x <;> cases mirror_y <;>
    simp [set_MX_testBit, set_MY_testBit, clear_MX_testBit, clear_MY_testBit, h8, h6, h7,
      eq_comm]

/-- The bits of the addressing byte stored by `swap_xy`. -/
theorem swap_xy_testBit (panel : jd9165ba_panel_t) (swap_axes : Bool) (tr : Trace)
    (i : Nat) :
    (panel_jd9165ba_swap_xy panel swap_axes tr).panel.madctl_val.testBit i =
      (decide (i < 8) && (if i = 5 then swap_axes else panel.madctl_val.testBit i)) := by
  have e : (panel_jd9165ba_swap_xy panel swap_axes tr).panel.madctl_val =
      (if swap_axes then to_uint8 (panel.madctl_val ||| LCD_CMD_MV_BIT)
        else to_uint8 (panel.madctl_val &&& int_not LCD_CMD_MV_BIT)) := by
    unfold panel_jd9165ba_swap_xy
    cases swap_axes <;> simp [apply_ite]
  rw [e]
  by_cases h8 : i < 8 <;> by_cases h5 : i = 5 <;> cases swap_axes <;>
    simp [set_MV_testBit, clear_MV_testBit, h8, h5, eq_comm]

/-- The bits of the addressing byte stored by `set_config`. -/
theorem set_config_testBit (panel : jd9165ba_panel_t) (cfg : esp_lcd_jd9165ba_config_t)
    (tr : Trace) (i : Nat) :
    (esp_lcd_jd9165ba_set_config panel (some cfg) tr).panel.madctl_val.testBit i =
      (decide (i < 8) &&
        (if i = 3 then cfg.color_space_bgr
          else if i = 6 then (panel.madctl_val.testBit i || cfg.mirror_horizontal)
          else if i = 7 then (panel.madctl_val.testBit i || cfg.mirror_vertical)
          else panel.madctl_val.testBit i)) := by
  obtain ⟨g, l, bgr, mh, mv⟩ := cfg
  have e : (esp_lcd_jd9165ba_set_config panel (some ⟨g, l, bgr, mh, mv⟩) tr).panel.madctl_val =
      (let m0 := if bgr then to_uint8 (panel.madctl_val ||| LCD_CMD_BGR_BIT)
        else to_uint8 (panel.madctl_val &&& int_not LCD_CMD_BGR_BIT)
       let m1 := if mh then to_uint8 (m0 ||| LCD_CMD_MX_BIT) else m0
       if mv then to_uint8 (m1 ||| LCD_CMD_MY_BIT) else m1) := by
    unfold esp_lcd_jd9165ba_set_config
    cases bgr <;> cases mh <;> cases mv <;> simp [apply_ite]
  rw [e]
  by_cases h8 : i < 8 <;> by_cases h3 : i = 3 <;> by_cases h6 : i = 6 <;>
    by_cases h7 : i = 7 <;> cases bgr <;> cases mh <;> cases mv <;>
    simp [set_BGR_testBit, clear_BGR_testBit, set_MX_testBit, set_MY_testBit, h8, h3, h6,
      h7, eq_comm]

/-- What `mirror` leaves behind: one MADCTL call carrying the stored byte, the status of
that call, and a panel state that differs from the old one in `madctl_val` only. -/
theorem mirror_shape (panel : jd9165ba_panel_t) (mirror_x mirror_y : Bool) (tr : Trace) :
    let r := panel_jd9165ba_mirror panel mirror_x mirror_y tr
    r.trace = tr ++ [Event.tx_param LCD_CMD_MADCTL [r.panel.madctl_val]] ∧
    r.ret = panel.io tr (Event.tx_param LCD_CMD_MADCTL [r.panel.madctl_val]) ∧
    r.panel = { panel with madctl_val := r.panel.madctl_val } := by
  unfold panel_jd9165ba_mirror
  cases mirror_x <;> cases mirror_y <;>
    simp only [esp_lcd_panel_io_tx_param, Bool.false_eq_true, if_false, if_true] <;>
    split <;> simp_all

/-- What `swap_xy` leaves behind: see `mirror_shape`. -/
theorem swap_xy_shape (panel : jd9165ba_panel_t) (swap_axes : Bool) (tr : Trace) :
    let r := panel_jd9165ba_swap_xy panel swap_axes tr
    r.trace = tr ++ [Event.tx_param LCD_CMD_MADCTL [r.panel.madctl_val]] ∧
    r.ret = panel.io tr (Event.tx_param LCD_CMD_MADCTL [r.panel.madctl_val]) ∧
    r.panel = { panel with madctl_val := r.panel.madctl_val } := by
  unfold panel_jd9165ba_swap_xy
  cases swap_axes <;>
    simp only [esp_lcd_panel_io_tx_param, Bool.false_eq_true, if_false, if_true] <;>
    split <;> simp_all

/-- What `set_config` leaves behind on a non-null configuration: see `mirror_shape`. -/
theorem set_config_shape (panel : jd9165ba_panel_t) (cfg : esp_lcd_jd9165ba_config_t)
    (tr : Trace) :
    let r := esp_lcd_jd9165ba_set_config panel (some cfg) tr
    r.trace = tr ++ [Event.tx_param LCD_CMD_MADCTL [r.panel.madctl_val]] ∧
    r.ret = panel.io tr (Event.tx_param LCD_CMD_MADCTL [r.panel.madctl_val]) ∧
    r.panel = { panel with madctl_val := r.panel.madctl_val } := by
  obtain ⟨g, l, bgr, mh, mv⟩ := cfg
  unfold esp_lcd_jd9165ba_set_config
  cases bgr <;> cases mh <;> cases mv <;>
    simp only [esp_lcd_panel_io_tx_param, Bool.false_eq_true, if_false, if_true] <;>
    split <;> simp_all

theorem testBit_eq_false_of_lt_256 (m i : Nat) (hm : m < 256) (hi : ¬ i < 8) :
    m.testBit i = false := by
  apply Nat.testBit_lt_two_pow
  calc m < 2 ^ 8 := by simpa using hm
    _ ≤ 2 ^ i := Nat.pow_le_pow_right (by decide) (by omega)

/-- C7 fails as stated: on a fresh panel, `set_config` with the BGR flag and then
`set_config` without it both succeed, the addressing byte is 0x08 after the first call
and 0x00 after the second, so the second call cleared a bit the first had set. -/
theorem set_config_clears_bgr :
    (esp_lcd_jd9165ba_set_config (panel_on transport_ok)
        (some ⟨-1, false, true, false, false⟩) []).ret = ESP_OK ∧
    (esp_lcd_jd9165ba_set_config (panel_on transport_ok)
        (some ⟨-1, false, true, false, false⟩) []).panel.madctl_val = 0x08 ∧
    (esp_lcd_jd9165ba_set_config
        (esp_lcd_jd9165ba_set_config (panel_on transport_ok)
          (some ⟨-1, false, true, false, false⟩) []).panel
        (some ⟨-1, false, false, false, false⟩)
        (esp_lcd_jd9165ba_set_config (panel_on transport_ok)
          (some ⟨-1, false, true, false, false⟩) []).trace).ret = ESP_OK ∧
    (esp_lcd_jd9165ba_set_config
        (esp_lcd_jd9165ba_set_config (panel_on transport_ok)
          (some ⟨-1, false, true, false, false⟩) []).panel
        (some ⟨-1, false, false, false, false⟩)
        (esp_lcd_jd9165ba_set_config (panel_on transport_ok)
          (some ⟨-1, false, true, false, false⟩) []).trace).panel.madctl_val = 0x00 ∧
    Nat.testBit 0x08 3 = true ∧ Nat.testBit 0x00 3 = false := by
  decide

/-- C7, amended: two calls of `set_config` only accumulate the mirror bits. For every
state, every pair of configurations and every transport, no bit of `madctl_val` other
than the BGR bit (bit 3) that is set after the first call is clear after the second;
the BGR bit after the second call is set exactly when the second configuration has
`color_space_bgr`. -/
theorem set_config_accumulates_mirror_bits (panel : jd9165ba_panel_t)
    (cfg1 cfg2 : esp_lcd_jd9165ba_config_t) (tr : Trace) :
    let r1 := esp_lcd_jd9165ba_set_config panel (some cfg1) tr
    let r2 := esp_lcd_jd9165ba_set_config r1.panel (some cfg2) r1.trace
    (∀ i, i ≠ 3 → r1.panel.madctl_val.testBit i = true →
      r2.panel.madctl_val.testBit i = true) ∧
    r2.panel.madctl_val.testBit 3 = cfg2.color_space_bgr := by
  intro r1 r2
  refine ⟨?_, ?_⟩
  · intro i h3 h
    have h1 := set_config_testBit panel cfg1 tr i
    rw [show (esp_lcd_jd9165ba_set_config panel (some cfg1) tr) = r1 from rfl] at h1
    rw [h] at h1
    show (esp_lcd_jd9165ba_set_config r1.panel (some cfg2) r1.trace).panel.madctl_val.testBit i
      = true
    rw [set_config_testBit, h]
    have h8 : i < 8 := by
      by_contra hc
      simp [hc] at h1
    simp only [h3, if_false, h8, decide_True, Bool.true_and, Bool.true_or]
    split
    · rfl
    · split <;> rfl
  · show (esp_lcd_jd9165ba_set_config r1.panel (some cfg2) r1.trace).panel.madctl_val.testBit 3
      = _
    rw [set_config_testBit]
    simp

/-- A mirror-X bit set by a first `set_config` survives a second one without flags. -/
theorem set_config_accumulates_mirror_bits_witness :
    (esp_lcd_jd9165ba_set_config (panel_on transport_ok)
        (some ⟨-1, false, false, true, false⟩) []).panel.madctl_val.testBit 6 = true ∧
    (esp_lcd_jd9165ba_set_config
        (esp_lcd_jd9165ba_set_config (panel_on transport_ok)
          (some ⟨-1, false, false, true, false⟩) []).panel
        (some ⟨-1, false, false, false, false⟩)
        (esp_lcd_jd9165ba_set_config (panel_on transport_ok)
          (some ⟨-1, false, false, true, false⟩) []).trace).panel.madctl_val.testBit 6
      = true :=
  ⟨by decide,
    (set_config_accumulates_mirror_bits (panel_on transport_ok)
      ⟨-1, false, false, true, false⟩ ⟨-1, false, false, false, false⟩ []).1 6
      (by decide) (by decide)⟩

/-- C8: `mirror` is last-write-wins. For every state (with `madctl_val` a byte), all
booleans `a b c d` and every transport, after `mirror(a,b)` then `mirror(c,d)` the stored
`madctl_val`, which is the byte of the second push, has the mirror-X bit (bit 6) equal
to `c`, the mirror-Y bit (bit 7) equal to `d` and every other bit as in the initial
state; it is the byte a single `mirror(c,d)` stores, whatever `a` and `b`. Each of the
two calls pushed once. -/
theorem mirror_last_write_wins (panel : jd9165ba_panel_t) (a b c d : Bool) (tr : Trace)
    (hm : panel.madctl_val < 256) :
    let r1 := panel_jd9165ba_mirror panel a b tr
    let r2 := panel_jd9165ba_mirror r1.panel c d r1.trace
    r2.trace = tr ++ [Event.tx_param LCD_CMD_MADCTL [r1.panel.madctl_val],
      Event.tx_param LCD_CMD_MADCTL [r2.panel.madctl_val]] ∧
    r2.panel.madctl_val.testBit 6 = c ∧
    r2.panel.madctl_val.testBit 7 = d ∧
    (∀ i, i ≠ 6 → i ≠ 7 → r2.panel.madctl_val.testBit i = panel.madctl_val.testBit i) ∧
    r2.panel.madctl_val = (panel_jd9165ba_mirror panel c d tr).panel.madctl_val := by
  intro r1 r2
  have hbit : ∀ i, r2.panel.madctl_val.testBit i =
      (decide (i < 8) &&
        (if i = 6 then c else if i = 7 then d else panel.madctl_val.testBit i)) := by
    intro i
    show (panel_jd9165ba_mirror (panel_jd9165ba_mirror panel a b tr).panel c d
      (panel_jd9165ba_mirror panel a b tr).trace).panel.madctl_val.testBit i = _
    rw [mirror_testBit, mirror_testBit]
    by_cases h8 : i < 8 <;> by_cases h6 : i = 6 <;> by_cases h7 : i = 7 <;> simp [h8, h6, h7]
  refine ⟨?_, ?_, ?_, ?_, ?_⟩
  · have h1 : r1.trace = tr ++ [Event.tx_param LCD_CMD_MADCTL [r1.panel.madctl_val]] :=
      (mirror_shape panel a b tr).1
    have h2 : r2.trace = r1.trace ++ [Event.tx_param LCD_CMD_MADCTL [r2.panel.madctl_val]] :=
      (mirror_shape r1.panel c d r1.trace).1
    rw [h2, h1, List.append_assoc]
    rfl
  · rw [hbit]; simp
  · rw [hbit]; simp
  · intro i h6 h7
    rw [hbit]
    by_cases h8 : i < 8
    · simp [h8, h6, h7]
    · simp [h8, testBit_eq_false_of_lt_256 _ i hm h8]
  · apply Nat.eq_of_testBit_eq
    intro i
    rw [hbit, mirror_testBit]

/-- The case `mirror(true,false)` then `mirror(false,false)` on a fresh panel: both
mirror bits end clear, after the pushes of 0x40 and 0x00. -/
theorem mirror_last_write_wins_witness :
    (panel_jd9165ba_mirror (panel_jd9165ba_mirror (panel_on transport_ok) true false []).panel
        false false
        (panel_jd9165ba_mirror (panel_on transport_ok) true false []).trace).trace =
      [Event.tx_param LCD_CMD_MADCTL [0x40], Event.tx_param LCD_CMD_MADCTL [0x00]] ∧
    (panel_jd9165ba_mirror (panel_jd9165ba_mirror (panel_on transport_ok) true false []).panel
        false false
        (panel_jd9165ba_mirror (panel_on transport_ok) true false []).trace
      ).panel.madctl_val.testBit 6 = false ∧
    (panel_jd9165ba_mirror (panel_jd9165ba_mirror (panel_on transport_ok) true false []).panel
        false false
        (panel_jd9165ba_mirror (panel_on transport_ok) true false []).trace
      ).panel.madctl_val.testBit 7 = false :=
  have h := mirror_last_write_wins (panel_on transport_ok) true false false false []
    (by decide)
  ⟨h.1, h.2.1, h.2.2.1⟩

/-- C9: `mirror` and `swap_xy` are idempotent. For every state, arguments and transport,
a second `mirror(x,y)` (respectively `swap_xy(s)`) leaves the panel state of the first,
each call makes exactly one transport call, the MADCTL push, and both pushes carry the
same byte; after `swap_xy(s)` twice the row/column-swap bit (bit 5) equals `s`, so
`swap_xy(true)` twice leaves it set. -/
theorem mirror_swap_idempotent (panel : jd9165ba_panel_t) (x y s : Bool) (tr : Trace) :
    (let r1 := panel_jd9165ba_mirror panel x y tr
     let r2 := panel_jd9165ba_mirror r1.panel x y r1.trace
     r2.panel = r1.panel ∧
     r1.trace = tr ++ [Event.tx_param LCD_CMD_MADCTL [r1.panel.madctl_val]] ∧
     r2.trace = r1.trace ++ [Event.tx_param LCD_CMD_MADCTL [r1.panel.madctl_val]]) ∧
    (let r1 := panel_jd9165ba_swap_xy panel s tr
     let r2 := panel_jd9165ba_swap_xy r1.panel s r1.trace
     r2.panel = r1.panel ∧
     r1.trace = tr ++ [Event.tx_param LCD_CMD_MADCTL [r1.panel.madctl_val]] ∧
     r2.trace = r1.trace ++ [Event.tx_param LCD_CMD_MADCTL [r1.panel.madctl_val]] ∧
     r2.panel.madctl_val.testBit 5 = s) := by
  constructor
  · intro r1 r2
    have hm : r2.panel.madctl_val = r1.panel.madctl_val := by
      apply Nat.eq_of_testBit_eq
      intro i
      show (panel_jd9165ba_mirror (panel_jd9165ba_mirror panel x y tr).panel x y
        (panel_jd9165ba_mirror panel x y tr).trace).panel.madctl_val.testBit i =
        (panel_jd9165ba_mirror panel x y tr).panel.madctl_val.testBit i
      rw [mirror_testBit, mirror_testBit]
      by_cases h8 : i < 8 <;> by_cases h6 : i = 6 <;> by_cases h7 : i = 7 <;>
        simp [h8, h6, h7]
    have h1 := mirror_shape panel x y tr
    have h2 := mirror_shape r1.panel x y r1.trace
    simp only [] at h1 h2
    refine ⟨?_, h1.1, ?_⟩
    · have h3 := h2.2.2
      rw [show panel_jd9165ba_mirror r1.panel x y r1.trace = r2 from rfl, hm] at h3
      exact h3
    · have h3 := h2.1
      rw [show panel_jd9165ba_mirror r1.panel x y r1.trace = r2 from rfl, hm] at h3
      exact h3
  · intro r1 r2
    have hm : r2.panel.madctl_val = r1.panel.madctl_val := by
      apply Nat.eq_of_testBit_eq
      intro i
      show (panel_jd9165ba_swap_xy (panel_jd9165ba_swap_xy panel s tr).panel s
        (panel_jd9165ba_swap_xy panel s tr).trace).panel.madctl_val.testBit i =
        (panel_jd9165ba_swap_xy panel s tr).panel.madctl_val.testBit i
      rw [swap_xy_testBit, swap_xy_testBit]
      by_cases h8 : i < 8 <;> by_cases h5 : i = 5 <;> simp [h8, h5]
    have h1 := swap_xy_shape panel s tr
    have h2 := swap_xy_shape r1.panel s r1.trace
    simp only [] at h1 h2
    refine ⟨?_, h1.1, ?_, ?_⟩
    · have h3 := h2.2.2
      rw [show panel_jd9165ba_swap_xy r1.panel s r1.trace = r2 from rfl, hm] at h3
      exact h3
    · have h3 := h2.1
      rw [show panel_jd9165ba_swap_xy r1.panel s r1.trace = r2 from rfl, hm] at h3
      exact h3
    · rw [hm]
      show (panel_jd9165ba_swap_xy panel s tr).panel.madctl_val.testBit 5 = s
      rw [swap_xy_testBit]
      simp

/-- C10: whenever `mirror`, `swap_xy` or `set_config` returns `ESP_OK`, it has made
exactly one transport call, the MADCTL command with the one-byte payload equal to
the `madctl_val` stored in the panel state it returns. -/
theorem mutator_push_on_success (panel : jd9165ba_panel_t) (x y s : Bool)
    (cfg : Option esp_lcd_jd9165ba_config_t) (tr : Trace) :
    ((panel_jd9165ba_mirror panel x y tr).ret = ESP_OK →
      (panel_jd9165ba_mirror panel x y tr).trace = tr ++
        [Event.tx_param LCD_CMD_MADCTL [(panel_jd9165ba_mirror panel x y tr).panel.madctl_val]]) ∧
    ((panel_jd9165ba_swap_xy panel s tr).ret = ESP_OK →
      (panel_jd9165ba_swap_xy panel s tr).trace = tr ++
        [Event.tx_param LCD_CMD_MADCTL [(panel_jd9165ba_swap_xy panel s tr).panel.madctl_val]]) ∧
    ((esp_lcd_jd9165ba_set_config panel cfg tr).ret = ESP_OK →
      (esp_lcd_jd9165ba_set_config panel cfg tr).trace = tr ++
        [Event.tx_param LCD_CMD_MADCTL
          [(esp_lcd_jd9165ba_set_config panel cfg tr).panel.madctl_val]]) := by
  refine ⟨fun _ => (mirror_shape panel x y tr).1, fun _ => (swap_xy_shape panel s tr).1, ?_⟩
  intro h
  cases cfg with
  | none => simp [esp_lcd_jd9165ba_set_config, ESP_ERR_INVALID_ARG, ESP_OK] at h
  | some c => exact (set_config_shape panel c tr).1

/-- On a fresh panel with an accepting transport: `mirror(true,true)` pushes 0xC0,
`swap_xy(true)` pushes 0x20 and `set_config` with the BGR flag pushes 0x08. -/
theorem mutator_push_on_success_witness :
    (panel_jd9165ba_mirror (panel_on transport_ok) true true []).trace =
      [Event.tx_param LCD_CMD_MADCTL [0xC0]] ∧
    (panel_jd9165ba_swap_xy (panel_on transport_ok) true []).trace =
      [Event.tx_param LCD_CMD_MADCTL [0x20]] ∧
    (esp_lcd_jd9165ba_set_config (panel_on transport_ok)
      (some ⟨-1, false, true, false, false⟩) []).trace =
      [Event.tx_param LCD_CMD_MADCTL [0x08]] :=
  have h := mutator_push_on_success (panel_on transport_ok) true true true
    (some ⟨-1, false, true, false, false⟩) []
  ⟨h.1 rfl, h.2.1 rfl, h.2.2 rfl⟩

/-! ## Frame of the operations -/

theorem reset_panel (panel : jd9165ba_panel_t) (tr : Trace) :
    (panel_jd9165ba_reset panel tr).panel = panel := by
  unfold panel_jd9165ba_reset
  split
  · rfl
  · simp only []
    split <;> rfl

theorem draw_bitmap_panel (panel : jd9165ba_panel_t) (x_start y_start x_end y_end : Int)
    (color_data : List Nat) (tr : Trace) :
    (panel_jd9165ba_draw_bitmap panel x_start y_start x_end y_end color_data tr).panel
      = panel := by
  unfold panel_jd9165ba_draw_bitmap
  repeat (first | rfl | split | simp only [])

theorem invert_color_result (panel : jd9165ba_panel_t) (b : Bool) (tr : Trace) :
    panel_jd9165ba_invert_color panel b tr =
      ⟨panel.io tr (Event.tx_param (if b then LCD_CMD_INVON else LCD_CMD_INVOFF) []), panel,
        tr ++ [Event.tx_param (if b then LCD_CMD_INVON else LCD_CMD_INVOFF) []]⟩ := by
  unfold panel_jd9165ba_invert_color
  cases b <;> simp only [esp_lcd_panel_io_tx_param, Bool.false_eq_true, if_false, if_true] <;>
    split <;> simp_all

theorem disp_on_off_result (panel : jd9165ba_panel_t) (b : Bool) (tr : Trace) :
    panel_jd9165ba_disp_on_off panel b tr =
      ⟨panel.io tr (Event.tx_param (if b then LCD_CMD_DISPON else LCD_CMD_DISPOFF) []), panel,
        tr ++ [Event.tx_param (if b then LCD_CMD_DISPON else LCD_CMD_DISPOFF) []]⟩ := by
  unfold panel_jd9165ba_disp_on_off
  cases b <;> simp only [esp_lcd_panel_io_tx_param, Bool.false_eq_true, if_false, if_true] <;>
    split <;> simp_all

theorem set_config_frame (panel : jd9165ba_panel_t)
    (cfg : Option esp_lcd_jd9165ba_config_t) (tr : Trace) :
    (esp_lcd_jd9165ba_set_config panel cfg tr).panel =
      { panel with
        madctl_val := (esp_lcd_jd9165ba_set_config panel cfg tr).panel.madctl_val } := by
  cases cfg with
  | none => rfl
  | some c => exact (set_config_shape panel c tr).2.2

/-- Every call leaves all fields of the panel state but `madctl_val` as they were. -/
theorem op_run_frame (op : Op) (panel : jd9165ba_panel_t) (tr : Trace) (r : Result)
    (h : op.run panel tr = some r) :
    r.panel = { panel with madctl_val := r.panel.madctl_val } := by
  cases op with
  | reset =>
    simp only [Op.run, Option.some.injEq] at h
    rw [← h, reset_panel]
  | init =>
    simp only [Op.run, panel_init_run_records, Option.some.injEq] at h
    rw [← h]
  | draw_bitmap x_start y_start x_end y_end color_data =>
    simp only [Op.run, Option.some.injEq] at h
    rw [← h, draw_bitmap_panel]
  | invert_color b =>
    simp only [Op.run, Option.some.injEq] at h
    rw [← h, invert_color_result]
  | mirror x y =>
    simp only [Op.run, Option.some.injEq] at h
    rw [← h]
    exact (mirror_shape panel x y tr).2.2
  | swap_xy s =>
    simp only [Op.run, Option.some.injEq] at h
    rw [← h]
    exact (swap_xy_shape panel s tr).2.2
  | set_gap x y =>
    simp only [Op.run, Option.some.injEq] at h
    rw [← h]
    rfl
  | disp_on_off b =>
    simp only [Op.run, Option.some.injEq] at h
    rw [← h, disp_on_off_result]
  | set_config cfg =>
    simp only [Op.run, Option.some.injEq] at h
    rw [← h]
    exact set_config_frame panel cfg tr

/-- C11: frame of the operations. Whatever the transport returns, `reset`, `init`,
`draw_bitmap`, `invert_color`, `disp_on_off` and `set_gap` return the panel state they
were given, every field unchanged (and `init` always returns); `mirror`, `swap_xy` and
`set_config` return a state that differs from it in `madctl_val` at most: transport,
reset pin, reset polarity, width, height and `colmod_val` are unchanged. -/
theorem panel_state_frame (panel : jd9165ba_panel_t) (tr : Trace)
    (x_start y_start x_end y_end x_gap y_gap : Int) (color_data : List Nat)
    (b x y s : Bool) (cfg : Option esp_lcd_jd9165ba_config_t) :
    (panel_jd9165ba_reset panel tr).panel = panel ∧
    (∃ r, panel_jd9165ba_init panel tr = some r ∧ r.panel = panel) ∧
    (panel_jd9165ba_draw_bitmap panel x_start y_start x_end y_end color_data tr).panel
      = panel ∧
    (panel_jd9165ba_invert_color panel b tr).panel = panel ∧
    (panel_jd9165ba_disp_on_off panel b tr).panel = panel ∧
    (panel_jd9165ba_set_gap panel x_gap y_gap tr).panel = panel ∧
    (panel_jd9165ba_mirror panel x y tr).panel =
      { panel with madctl_val := (panel_jd9165ba_mirror panel x y tr).panel.madctl_val } ∧
    (panel_jd9165ba_swap_xy panel s tr).panel =
      { panel with madctl_val := (panel_jd9165ba_swap_xy panel s tr).panel.madctl_val } ∧
    (esp_lcd_jd9165ba_set_config panel cfg tr).panel =
      { panel with
        madctl_val := (esp_lcd_jd9165ba_set_config panel cfg tr).panel.madctl_val } := by
  refine ⟨reset_panel panel tr, ⟨_, panel_init_run_records panel tr, rfl⟩,
    draw_bitmap_panel panel x_start y_start x_end y_end color_data tr, ?_, ?_, rfl,
    (mirror_shape panel x y tr).2.2, (swap_xy_shape panel s tr).2.2,
    set_config_frame panel cfg tr⟩
  · rw [invert_color_result]
  · rw [disp_on_off_result]

/-! ## Reset -/

/-- C12 fails as stated: on a panel without reset line whose transport rejects the
software-reset command, `reset` returns that failure after the command alone; no
120 ms delay follows. -/
theorem reset_software_rejected :
    (panel_on (transport_fail_at 0)).reset_gpio_num = -1 ∧
    (panel_jd9165ba_reset (panel_on (transport_fail_at 0)) []).ret = ESP_FAIL ∧
    (panel_jd9165ba_reset (panel_on (transport_fail_at 0)) []).trace =
      [Event.tx_param LCD_CMD_SWRESET []] := by
  decide

/-- C12, amended: with a reset line (`reset_gpio_num ≥ 0`) `reset` makes exactly two
level-set calls, the active level `reset_level` then its negation, each followed by a
10 ms delay, no transport call, and returns `ESP_OK`. Without a reset line it makes no
GPIO call and exactly one transport call, the software-reset command without payload:
if the transport accepts it a 120 ms delay follows and `reset` returns `ESP_OK`; if
the transport rejects it `reset` returns that failure and no delay follows. -/
theorem reset_sequence (panel : jd9165ba_panel_t) (tr : Trace) :
    (0 ≤ panel.reset_gpio_num →
      panel_jd9165ba_reset panel tr = ⟨ESP_OK, panel, tr ++
        [Event.gpio_set_level panel.reset_gpio_num panel.reset_level, Event.delay 10,
         Event.gpio_set_level panel.reset_gpio_num (!panel.reset_level), Event.delay 10]⟩) ∧
    (panel.reset_gpio_num < 0 →
      panel.io tr (Event.tx_param LCD_CMD_SWRESET []) = ESP_OK →
      panel_jd9165ba_reset panel tr = ⟨ESP_OK, panel, tr ++
        [Event.tx_param LCD_CMD_SWRESET [], Event.delay 120]⟩) ∧
    (panel.reset_gpio_num < 0 →
      panel.io tr (Event.tx_param LCD_CMD_SWRESET []) ≠ ESP_OK →
      panel_jd9165ba_reset panel tr =
        ⟨panel.io tr (Event.tx_param LCD_CMD_SWRESET []), panel,
          tr ++ [Event.tx_param LCD_CMD_SWRESET []]⟩) := by
  refine ⟨?_, ?_, ?_⟩
  · intro h
    simp [panel_jd9165ba_reset, h, gpio_set_level, vTaskDelay_ms]
  · intro h hio
    have h0 : ¬ 0 ≤ panel.reset_gpio_num := by omega
    simp [panel_jd9165ba_reset, h0, esp_lcd_panel_io_tx_param, hio, vTaskDelay_ms]
  · intro h hio
    have h0 : ¬ 0 ≤ panel.reset_gpio_num := by omega
    simp [panel_jd9165ba_reset, h0, esp_lcd_panel_io_tx_param, hio]

/-- A panel with reset line 27, active low, and a panel without reset line on an
accepting transport. -/
theorem reset_sequence_witness :
    panel_jd9165ba_reset { panel_on transport_ok with reset_gpio_num := 27 } [] =
      ⟨ESP_OK, { panel_on transport_ok with reset_gpio_num := 27 },
        [Event.gpio_set_level 27 false, Event.delay 10,
         Event.gpio_set_level 27 true, Event.delay 10]⟩ ∧
    panel_jd9165ba_reset (panel_on transport_ok) [] =
      ⟨ESP_OK, panel_on transport_ok, [Event.tx_param LCD_CMD_SWRESET [], Event.delay 120]⟩ :=
  ⟨(reset_sequence { panel_on transport_ok with reset_gpio_num := 27 } []).1 (by decide),
    (reset_sequence (panel_on transport_ok) []).2.1 (by decide) rfl⟩

/-! ## Bulk configuration and forwarding operations -/

/-- C14: `set_config` applies its flags to the addressing byte. After
`esp_lcd_jd9165ba_set_config(cfg)` the BGR bit (bit 3) of `madctl_val` is set iff
`color_space_bgr` is set, the mirror-X bit (bit 6) iff it was set or
`mirror_horizontal` is set, the mirror-Y bit (bit 7) iff it was set or
`mirror_vertical` is set, and the axis-swap bit (bit 5) is as before; the fields
`reset_gpio_num` and `reset_level` of the configuration have no effect on the result. -/
theorem set_config_flags (panel : jd9165ba_panel_t) (cfg : esp_lcd_jd9165ba_config_t)
    (tr : Trace) (gpio : Int) (level : Bool) :
    (esp_lcd_jd9165ba_set_config panel (some cfg) tr).panel.madctl_val.testBit 3
      = cfg.color_space_bgr ∧
    (esp_lcd_jd9165ba_set_config panel (some cfg) tr).panel.madctl_val.testBit 6
      = (panel.madctl_val.testBit 6 || cfg.mirror_horizontal) ∧
    (esp_lcd_jd9165ba_set_config panel (some cfg) tr).panel.madctl_val.testBit 7
      = (panel.madctl_val.testBit 7 || cfg.mirror_vertical) ∧
    (esp_lcd_jd9165ba_set_config panel (some cfg) tr).panel.madctl_val.testBit 5
      = panel.madctl_val.testBit 5 ∧
    esp_lcd_jd9165ba_set_config panel
        (some { cfg with reset_gpio_num := gpio, reset_level := level }) tr
      = esp_lcd_jd9165ba_set_config panel (some cfg) tr := by
  refine ⟨?_, ?_, ?_, ?_, rfl⟩ <;> rw [set_config_testBit] <;> simp

/-- C15: `invert_color(b)` and `disp_on_off(b)` are pure forwarding. Each makes exactly
one transport call, a command without payload that is fixed by the boolean alone
(invert-on for true, invert-off for false; display-on for true, display-off for
false), returns the status of that call and leaves the panel state as it was. -/
theorem invert_disp_forwarding (panel : jd9165ba_panel_t) (b : Bool) (tr : Trace) :
    panel_jd9165ba_invert_color panel b tr =
      ⟨panel.io tr (Event.tx_param (if b then LCD_CMD_INVON else LCD_CMD_INVOFF) []), panel,
        tr ++ [Event.tx_param (if b then LCD_CMD_INVON else LCD_CMD_INVOFF) []]⟩ ∧
    panel_jd9165ba_disp_on_off panel b tr =
      ⟨panel.io tr (Event.tx_param (if b then LCD_CMD_DISPON else LCD_CMD_DISPOFF) []), panel,
        tr ++ [Event.tx_param (if b then LCD_CMD_DISPON else LCD_CMD_DISPOFF) []]⟩ ∧
    LCD_CMD_INVON ≠ LCD_CMD_INVOFF ∧ LCD_CMD_DISPON ≠ LCD_CMD_DISPOFF :=
  ⟨invert_color_result panel b tr, disp_on_off_result panel b tr, by decide, by decide⟩

/-! ## Creation and reachable states -/

/-- A successful creation: both pointers were non-null and the state is the one the
factory populates. -/
theorem new_panel_ok (io : Option Transport)
    (panel_dev_config : Option esp_lcd_panel_dev_config_t) (ret_panel calloc_ok : Bool)
    (gpio_config : Int → esp_err_t) (panel : jd9165ba_panel_t)
    (h : esp_lcd_new_panel_jd9165ba io panel_dev_config ret_panel calloc_ok gpio_config
      = (ESP_OK, some panel)) :
    ∃ t cfg, io = some t ∧ panel_dev_config = some cfg ∧
      panel = {
        io := t
        reset_gpio_num := cfg.reset_gpio_num
        reset_level := cfg.reset_active_high
        width := to_uint16 (if cfg.width ≠ 0 then cfg.width else 1024)
        height := to_uint16 (if cfg.height ≠ 0 then cfg.height else 600)
        madctl_val := 0
        colmod_val := 0x77 } := by
  unfold esp_lcd_new_panel_jd9165ba at h
  split at h
  · rename_i t cfg
    split at h
    · simp at h
    · split at h
      · simp at h
      · simp only [Prod.mk.injEq, Option.some.injEq, true_and] at h
        exact ⟨t, cfg, rfl, rfl, h.symm⟩
  · simp at h

/-- Every call returns. -/
theorem op_run_total (op : Op) (panel : jd9165ba_panel_t) (tr : Trace) :
    ∃ r, op.run panel tr = some r := by
  cases op <;> simp [Op.run, panel_init_run_records]

/-- A sequence of calls always runs to its end, and the state at the end differs from
the initial one in `madctl_val` at most. -/
theorem run_ops_frame (ops : List Op) :
    ∀ (panel : jd9165ba_panel_t) (tr : Trace), ∃ p tr1,
      run_ops ops panel tr = some (p, tr1) ∧
      p = { panel with madctl_val := p.madctl_val } := by
  induction ops with
  | nil => intro panel tr; exact ⟨panel, tr, rfl, rfl⟩
  | cons op ops ih =>
    intro panel tr
    obtain ⟨r, hr⟩ := op_run_total op panel tr
    obtain ⟨p, tr1, h1, h2⟩ := ih r.panel r.trace
    refine ⟨p, tr1, ?_, ?_⟩
    · simp only [run_ops, hr, h1]
    · have h3 := op_run_frame op panel tr r hr
      rw [h2, h3]

/-- Every call keeps the addressing byte within the four flags. -/
theorem op_run_flags (op : Op) (panel : jd9165ba_panel_t) (tr : Trace) (r : Result)
    (h : op.run panel tr = some r) (hm : madctl_flags_only panel.madctl_val) :
    madctl_flags_only r.panel.madctl_val := by
  cases op with
  | reset =>
    simp only [Op.run, Option.some.injEq] at h
    rw [← h, reset_panel]; exact hm
  | init =>
    simp only [Op.run, panel_init_run_records, Option.some.injEq] at h
    rw [← h]; exact hm
  | draw_bitmap x_start y_start x_end y_end color_data =>
    simp only [Op.run, Option.some.injEq] at h
    rw [← h, draw_bitmap_panel]; exact hm
  | invert_color b =>
    simp only [Op.run, Option.some.injEq] at h
    rw [← h, invert_color_result]; exact hm
  | set_gap x y =>
    simp only [Op.run, Option.some.injEq] at h
    rw [← h]; exact hm
  | disp_on_off b =>
    simp only [Op.run, Option.some.injEq] at h
    rw [← h, disp_on_off_result]; exact hm
  | mirror x y =>
    simp only [Op.run, Option.some.injEq] at h
    rw [← h]
    intro i hi
    rw [mirror_testBit] at hi
    by_cases h6 : i = 6
    · exact Or.inr (Or.inr (Or.inl h6))
    · by_cases h7 : i = 7
      · exact Or.inr (Or.inr (Or.inr h7))
      · simp only [h6, h7, if_false, Bool.and_eq_true] at hi
        exact hm i hi.2
  | swap_xy s =>
    simp only [Op.run, Option.some.injEq] at h
    rw [← h]
    intro i hi
    rw [swap_xy_testBit] at hi
    by_cases h5 : i = 5
    · exact Or.inr (Or.inl h5)
    · simp only [h5, if_false, Bool.and_eq_true] at hi
      exact hm i hi.2
  | set_config cfg =>
    simp only [Op.run, Option.some.injEq] at h
    rw [← h]
    cases cfg with
    | none => exact hm
    | some c =>
      intro i hi
      rw [set_config_testBit] at hi
      by_cases h3 : i = 3
      · exact Or.inl h3
      · by_cases h6 : i = 6
        · exact Or.inr (Or.inr (Or.inl h6))
        · by_cases h7 : i = 7
          · exact Or.inr (Or.inr (Or.inr h7))
          · simp only [h3, h6, h7, if_false, Bool.and_eq_true] at hi
            exact hm i hi.2

theorem run_ops_flags (ops : List Op) :
    ∀ (panel p : jd9165ba_panel_t) (tr tr1 : Trace),
      run_ops ops panel tr = some (p, tr1) → madctl_flags_only panel.madctl_val →
      madctl_flags_only p.madctl_val := by
  induction ops with
  | nil =>
    intro panel p tr tr1 h hm
    simp only [run_ops, Option.some.injEq, Prod.mk.injEq] at h
    rw [← h.1]; exact hm
  | cons op ops ih =>
    intro panel p tr tr1 h hm
    obtain ⟨r, hr⟩ := op_run_total op panel tr
    simp only [run_ops, hr] at h
    exact ih r.panel p r.trace tr1 h (op_run_flags op panel tr r hr hm)

/-- C13 fails as stated: the factory accepts a configuration with width 65536 and
height 600 and returns `ESP_OK`, but the `uint16_t` field keeps only the low 16 bits:
the created state has width 0, which is neither positive nor the configured value
(the height is stored as 600). -/
theorem new_panel_width_truncated :
    (esp_lcd_new_panel_jd9165ba (some transport_ok) (some ⟨-1, 65536, 600, false⟩) true true
      (fun _ => ESP_OK)).1 = ESP_OK ∧
    Option.map jd9165ba_panel_t.width
      (esp_lcd_new_panel_jd9165ba (some transport_ok) (some ⟨-1, 65536, 600, false⟩) true true
        (fun _ => ESP_OK)).2 = some 0 ∧
    Option.map jd9165ba_panel_t.height
      (esp_lcd_new_panel_jd9165ba (some transport_ok) (some ⟨-1, 65536, 600, false⟩) true true
        (fun _ => ESP_OK)).2 = some 600 := by
  decide

/-- C13, amended: for every device configuration the factory accepts whose width and
height are below 65536 (they fit the `uint16_t` fields of the state), the created
state has the configured width, or 1024 for a configured width of zero, and the
configured height, or 600 for a configured height of zero; both are positive, and
after any sequence of operations, with any arguments and transport outcomes, width
and height are still the created ones, hence positive. -/
theorem new_panel_dimensions (io : Option Transport) (cfg : esp_lcd_panel_dev_config_t)
    (ret_panel calloc_ok : Bool) (gpio_config : Int → esp_err_t) (panel : jd9165ba_panel_t)
    (hw : cfg.width < 65536) (hh : cfg.height < 65536)
    (hnew : esp_lcd_new_panel_jd9165ba io (some cfg) ret_panel calloc_ok gpio_config
      = (ESP_OK, some panel)) :
    panel.width = (if cfg.width = 0 then 1024 else cfg.width) ∧
    panel.height = (if cfg.height = 0 then 600 else cfg.height) ∧
    0 < panel.width ∧ 0 < panel.height ∧
    ∀ (ops : List Op) (tr : Trace), ∃ p tr1, run_ops ops panel tr = some (p, tr1) ∧
      p.width = panel.width ∧ p.height = panel.height ∧ 0 < p.width ∧ 0 < p.height := by
  obtain ⟨t, c, -, hc, hp⟩ := new_panel_ok io (some cfg) ret_panel calloc_ok gpio_config
    panel hnew
  simp only [Option.some.injEq] at hc
  subst hc
  have h1 : panel.width = (if cfg.width = 0 then 1024 else cfg.width) := by
    rw [hp]
    by_cases h : cfg.width = 0
    · simp [to_uint16, h]
    · simp [to_uint16, h]
      omega
  have h2 : panel.height = (if cfg.height = 0 then 600 else cfg.height) := by
    rw [hp]
    by_cases h : cfg.height = 0
    · simp [to_uint16, h]
    · simp [to_uint16, h]
      omega
  have h3 : 0 < panel.width := by rw [h1]; split <;> omega
  have h4 : 0 < panel.height := by rw [h2]; split <;> omega
  refine ⟨h1, h2, h3, h4, ?_⟩
  intro ops tr
  obtain ⟨p, tr1, hrun, hfr⟩ := run_ops_frame ops panel tr
  have hw1 : p.width = panel.width := by rw [hfr]
  have hh1 : p.height = panel.height := by rw [hfr]
  exact ⟨p, tr1, hrun, hw1, hh1, by omega, by omega⟩

/-- A configuration with width 800 and the height left unset: the factory accepts it and
the created panel is 800 wide, as configured, and 600 high, the default. -/
theorem new_panel_dimensions_witness :
    ∃ panel,
      esp_lcd_new_panel_jd9165ba (some transport_ok) (some ⟨-1, 800, 0, false⟩) true true
        (fun _ => ESP_OK) = (ESP_OK, some panel) ∧
      panel.width = 800 ∧ panel.height = 600 ∧ 0 < panel.width ∧ 0 < panel.height :=
  have hnew : esp_lcd_new_panel_jd9165ba (some transport_ok) (some ⟨-1, 800, 0, false⟩)
      true true (fun _ => ESP_OK) = (ESP_OK, some { panel_on transport_ok with width := 800 }) := by
    simp [esp_lcd_new_panel_jd9165ba, panel_on, to_uint16]
  have h := new_panel_dimensions (some transport_ok) ⟨-1, 800, 0, false⟩ true true
    (fun _ => ESP_OK) { panel_on transport_ok with width := 800 } (by decide) (by decide) hnew
  ⟨_, hnew, h.1, h.2.1, h.2.2.1, h.2.2.2.1⟩

/-- C16: the addressing byte of a created panel is 0, and in every state reached from a
successful creation by any sequence of `reset`, `init`, `draw_bitmap`, `invert_color`,
`mirror`, `swap_xy`, `set_gap`, `disp_on_off` and `set_config` calls, with any arguments
and any transport outcomes, `madctl_val` has no bit set outside the four flags
mirror-X, mirror-Y, axis swap and BGR. -/
theorem madctl_reachable_flags (io : Option Transport)
    (panel_dev_config : Option esp_lcd_panel_dev_config_t) (ret_panel calloc_ok : Bool)
    (gpio_config : Int → esp_err_t) (panel : jd9165ba_panel_t)
    (hnew : esp_lcd_new_panel_jd9165ba io panel_dev_config ret_panel calloc_ok gpio_config
      = (ESP_OK, some panel)) :
    panel.madctl_val = 0 ∧
    ∀ (ops : List Op) (tr : Trace), ∃ p tr1, run_ops ops panel tr = some (p, tr1) ∧
      madctl_flags_only p.madctl_val := by
  obtain ⟨t, c, -, -, hp⟩ := new_panel_ok io panel_dev_config ret_panel calloc_ok
    gpio_config panel hnew
  have h0 : panel.madctl_val = 0 := by rw [hp]
  refine ⟨h0, ?_⟩
  intro ops tr
  obtain ⟨p, tr1, hrun, -⟩ := run_ops_frame ops panel tr
  refine ⟨p, tr1, hrun, run_ops_flags ops panel p tr tr1 hrun ?_⟩
  intro i hi
  rw [h0] at hi
  simp at hi

/-- A fresh panel driven through all three mutators, the second push rejected. -/
theorem madctl_reachable_flags_witness :
    (panel_on (transport_fail_at 1)).madctl_val = 0 ∧
    ∃ p tr1, run_ops [Op.mirror true true, Op.swap_xy true,
        Op.set_config (some ⟨-1, false, true, false, false⟩)]
        (panel_on (transport_fail_at 1)) [] = some (p, tr1) ∧
      madctl_flags_only p.madctl_val :=
  have h := madctl_reachable_flags (some (transport_fail_at 1)) (some ⟨-1, 0, 0, false⟩)
    true true (fun _ => ESP_OK) (panel_on (transport_fail_at 1))
    (by simp [esp_lcd_new_panel_jd9165ba, panel_on, to_uint16])
  ⟨h.1, h.2 _ []⟩

/-! ## Mutators under a rejecting transport -/

/-- The byte a mutator stores does not depend on the transport. -/
theorem mirror_madctl_io (panel : jd9165ba_panel_t) (io : Transport) (x y : Bool)
    (tr : Trace) :
    (panel_jd9165ba_mirror { panel with io := io } x y tr).panel.madctl_val =
      (panel_jd9165ba_mirror panel x y tr).panel.madctl_val := by
  apply Nat.eq_of_testBit_eq
  intro i
  rw [mirror_testBit, mirror_testBit]

theorem swap_xy_madctl_io (panel : jd9165ba_panel_t) (io : Transport) (s : Bool)
    (tr : Trace) :
    (panel_jd9165ba_swap_xy { panel with io := io } s tr).panel.madctl_val =
      (panel_jd9165ba_swap_xy panel s tr).panel.madctl_val := by
  apply Nat.eq_of_testBit_eq
  intro i
  rw [swap_xy_testBit, swap_xy_testBit]

theorem set_config_madctl_io (panel : jd9165ba_panel_t) (io : Transport)
    (cfg : esp_lcd_jd9165ba_config_t) (tr : Trace) :
    (esp_lcd_jd9165ba_set_config { panel with io := io } (some cfg) tr).panel.madctl_val =
      (esp_lcd_jd9165ba_set_config panel (some cfg) tr).panel.madctl_val := by
  apply Nat.eq_of_testBit_eq
  intro i
  rw [set_config_testBit, set_config_testBit]

/-- C17: the mutators are not atomic on error. For every state and arguments, when the
transport rejects the MADCTL push of `mirror` (likewise of `swap_xy` and of `set_config`),
the operation returns the status of that push, a failure, and the stored `madctl_val`
is the pushed byte, the same updated value the operation stores on an accepting
transport, where it returns `ESP_OK`. -/
theorem mutators_not_atomic (panel : jd9165ba_panel_t) (x y s : Bool)
    (cfg : esp_lcd_jd9165ba_config_t) (tr : Trace) :
    ((panel_jd9165ba_mirror panel x y tr).ret ≠ ESP_OK →
      (panel_jd9165ba_mirror panel x y tr).ret = panel.io tr
        (Event.tx_param LCD_CMD_MADCTL [(panel_jd9165ba_mirror panel x y tr).panel.madctl_val]) ∧
      (panel_jd9165ba_mirror panel x y tr).panel.madctl_val =
        (panel_jd9165ba_mirror { panel with io := transport_ok } x y tr).panel.madctl_val ∧
      (panel_jd9165ba_mirror { panel with io := transport_ok } x y tr).ret = ESP_OK) ∧
    ((panel_jd9165ba_swap_xy panel s tr).ret ≠ ESP_OK →
      (panel_jd9165ba_swap_xy panel s tr).ret = panel.io tr
        (Event.tx_param LCD_CMD_MADCTL [(panel_jd9165ba_swap_xy panel s tr).panel.madctl_val]) ∧
      (panel_jd9165ba_swap_xy panel s tr).panel.madctl_val =
        (panel_jd9165ba_swap_xy { panel with io := transport_ok } s tr).panel.madctl_val ∧
      (panel_jd9165ba_swap_xy { panel with io := transport_ok } s tr).ret = ESP_OK) ∧
    ((esp_lcd_jd9165ba_set_config panel (some cfg) tr).ret ≠ ESP_OK →
      (esp_lcd_jd9165ba_set_config panel (some cfg) tr).ret = panel.io tr
        (Event.tx_param LCD_CMD_MADCTL
          [(esp_lcd_jd9165ba_set_config panel (some cfg) tr).panel.madctl_val]) ∧
      (esp_lcd_jd9165ba_set_config panel (some cfg) tr).panel.madctl_val =
        (esp_lcd_jd9165ba_set_config { panel with io := transport_ok } (some cfg)
          tr).panel.madctl_val ∧
      (esp_lcd_jd9165ba_set_config { panel with io := transport_ok } (some cfg) tr).ret
        = ESP_OK) := by
  refine ⟨fun _ => ⟨(mirror_shape panel x y tr).2.1,
      (mirror_madctl_io panel transport_ok x y tr).symm, ?_⟩,
    fun _ => ⟨(swap_xy_shape panel s tr).2.1,
      (swap_xy_madctl_io panel transport_ok s tr).symm, ?_⟩,
    fun _ => ⟨(set_config_shape panel cfg tr).2.1,
      (set_config_madctl_io panel transport_ok cfg tr).symm, ?_⟩⟩
  · exact (mirror_shape { panel with io := transport_ok } x y tr).2.1
  · exact (swap_xy_shape { panel with io := transport_ok } s tr).2.1
  · exact (set_config_shape { panel with io := transport_ok } cfg tr).2.1

/-- On a fresh panel whose transport rejects the first call, `mirror(true,false)` fails
and stores 0x40 although the device accepted no byte. -/
theorem mutators_not_atomic_witness :
    (panel_on (transport_fail_at 0)).madctl_val = 0 ∧
    (panel_jd9165ba_mirror (panel_on (transport_fail_at 0)) true false []).ret = ESP_FAIL ∧
    (panel_jd9165ba_mirror (panel_on (transport_fail_at 0)) true false []).panel.madctl_val
      = 0x40 ∧
    (panel_jd9165ba_mirror { panel_on (transport_fail_at 0) with io := transport_ok }
      true false []).ret = ESP_OK :=
  have h := (mutators_not_atomic (panel_on (transport_fail_at 0)) true false false
    ⟨-1, false, false, false, false⟩ []).1 (by decide)
  ⟨rfl, h.1, h.2.1, h.2.2⟩

/-! ## Draw bitmap inside the native panel -/

/-- C18: for every window inside the native panel, `0 ≤ x_start < x_end ≤ 1024` and
`0 ≤ y_start < y_end ≤ 600`, no step of the 32-bit `int` computation
`(x_end - x_start) * (y_end - y_start) * 3` of `draw_bitmap` overflows: the length
handed to the transport is the mathematical product, positive and at most 1,843,200;
each of the four address values fits in 16 bits, so the two byte pairs sent with the
column and row commands decode back, most significant byte first, to
`(x_start, x_end - 1)` and `(y_start, y_end - 1)`. The calls are the ones
`draw_bitmap` makes on a transport that accepts them. -/
theorem draw_bitmap_native_window (panel : jd9165ba_panel_t)
    (x_start y_start x_end y_end : Int) (color_data : List Nat) (tr : Trace)
    (hx0 : 0 ≤ x_start) (hx : x_start < x_end) (hx1 : x_end ≤ 1024)
    (hy0 : 0 ≤ y_start) (hy : y_start < y_end) (hy1 : y_end ≤ 600) :
    to_int32 (x_end - x_start) = x_end - x_start ∧
    to_int32 (y_end - y_start) = y_end - y_start ∧
    to_int32 (to_int32 (x_end - x_start) * to_int32 (y_end - y_start)) =
      (x_end - x_start) * (y_end - y_start) ∧
    to_int32 (to_int32 (to_int32 (x_end - x_start) * to_int32 (y_end - y_start)) * 3) =
      (x_end - x_start) * (y_end - y_start) * 3 ∧
    ∃ c0 c1 c2 c3 r0 r1 r2 r3 len : Nat,
      ((∀ h e, panel.io h e = ESP_OK) →
        panel_jd9165ba_draw_bitmap panel x_start y_start x_end y_end color_data tr =
          ⟨ESP_OK, panel, tr ++
            [Event.tx_param LCD_CMD_CASET [c0, c1, c2, c3],
             Event.tx_param LCD_CMD_RASET [r0, r1, r2, r3],
             Event.tx_color LCD_CMD_RAMWR color_data len]⟩) ∧
      (len : Int) = (x_end - x_start) * (y_end - y_start) * 3 ∧
      0 < len ∧ len ≤ 1843200 ∧
      x_start < 65536 ∧ x_end - 1 < 65536 ∧ y_start < 65536 ∧ y_end - 1 < 65536 ∧
      c0 < 256 ∧ c1 < 256 ∧ c2 < 256 ∧ c3 < 256 ∧
      r0 < 256 ∧ r1 < 256 ∧ r2 < 256 ∧ r3 < 256 ∧
      (256 * c0 + c1 : Int) = x_start ∧ (256 * c2 + c3 : Int) = x_end - 1 ∧
      (256 * r0 + r1 : Int) = y_start ∧ (256 * r2 + r3 : Int) = y_end - 1 := by
  have hdx : 0 < x_end - x_start := by omega
  have hdy : 0 < y_end - y_start := by omega
  have hdx1 : x_end - x_start ≤ 1024 := by omega
  have hdy1 : y_end - y_start ≤ 600 := by omega
  have hp0 : 0 < (x_end - x_start) * (y_end - y_start) := mul_pos hdx hdy
  have hp1 : (x_end - x_start) * (y_end - y_start) ≤ 1024 * 600 :=
    mul_le_mul hdx1 hdy1 hdy.le (by decide)
  have e1 : to_int32 (x_end - 1) = x_end - 1 := to_int32_of_range _ (by omega) (by omega)
  have e2 : to_int32 (y_end - 1) = y_end - 1 := to_int32_of_range _ (by omega) (by omega)
  have e3 : to_int32 (x_end - x_start) = x_end - x_start :=
    to_int32_of_range _ (by omega) (by omega)
  have e4 : to_int32 (y_end - y_start) = y_end - y_start :=
    to_int32_of_range _ (by omega) (by omega)
  have e5 : to_int32 ((x_end - x_start) * (y_end - y_start)) =
      (x_end - x_start) * (y_end - y_start) :=
    to_int32_of_range _ (by omega) (by omega)
  have e6 : to_int32 ((x_end - x_start) * (y_end - y_start) * 3) =
      (x_end - x_start) * (y_end - y_start) * 3 :=
    to_int32_of_range _ (by omega) (by omega)
  have e7 : to_size_t ((x_end - x_start) * (y_end - y_start) * 3) =
      ((x_end - x_start) * (y_end - y_start) * 3).toNat :=
    to_size_t_of_nonneg _ (by omega) (by omega)
  have cx0 := low_byte_of_u16 x_start hx0 (by omega)
  have cx1 := low_byte_of_u16 (x_end - 1) (by omega) (by omega)
  have cy0 := low_byte_of_u16 y_start hy0 (by omega)
  have cy1 := low_byte_of_u16 (y_end - 1) (by omega) (by omega)
  refine ⟨e3, e4, by rw [e3, e4, e5], by rw [e3, e4, e5, e6],
    x_start.toNat / 256, x_start.toNat % 256, (x_end - 1).toNat / 256,
    (x_end - 1).toNat % 256, y_start.toNat / 256, y_start.toNat % 256,
    (y_end - 1).toNat / 256, (y_end - 1).toNat % 256,
    ((x_end - x_start) * (y_end - y_start) * 3).toNat, ?_, ?_⟩
  · intro hio
    simp only [panel_jd9165ba_draw_bitmap, esp_lcd_panel_io_tx_param,
      esp_lcd_panel_io_tx_color, hio, hx, hy, e1, e2, e3, e4, e5, e6, e7, cx0.1, cx0.2,
      cx1.1, cx1.2, cy0.1, cy0.2, cy1.1, cy1.2]
    simp
  · have hl : (((x_end - x_start) * (y_end - y_start) * 3).toNat : Int) =
        (x_end - x_start) * (y_end - y_start) * 3 := Int.toNat_of_nonneg (by omega)
    refine ⟨hl, ?_, ?_, by omega, by omega, by omega, by omega, ?_⟩
    · omega
    · omega
    · omega

/-- The full-screen draw of the test harness, window (0,0,1024,600): it succeeds and its
last call is the memory-write of 1,843,200 bytes. -/
theorem draw_bitmap_native_window_witness :
    (panel_jd9165ba_draw_bitmap (panel_on transport_ok) 0 0 1024 600 [] []).ret = ESP_OK ∧
    (panel_jd9165ba_draw_bitmap (panel_on transport_ok) 0 0 1024 600 [] []).trace.getLast?
      = some (Event.tx_color LCD_CMD_RAMWR [] 1843200) := by
  obtain ⟨-, -, -, -, c0, c1, c2, c3, r0, r1, r2, r3, len, h, hlen, -⟩ :=
    draw_bitmap_native_window (panel_on transport_ok) 0 0 1024 600 [] [] (by decide)
      (by decide) (by decide) (by decide) (by decide) (by decide)
  have hl : len = 1843200 := by omega
  rw [h (fun _ _ => rfl), hl]
  exact ⟨rfl, rfl⟩

end JD9165BA
